/-
  Verification of the frp tunnel control plane against its specification.

  Shallow embedding of the Go sources:
    src/models/config/proxy.go   (proxy configuration, compare, range sections)
    src/client/proxy/proxy.go    (client proxy handlers, PROXY protocol header)
    src/unnamed/part_000         (client control loop, server service, server proxy manager)

  Go maps are embedded as association lists with distinct keys; machine
  integers as Int/Nat (no overflow is relevant to the verified claims);
  fallible code returns Except/Option; goroutine loops become explicit
  step functions on a state type with event traces.
-/
import Mathlib

namespace Frp

/-! ## Association lists: the embedding of Go string maps -/

/-- Lookup of the first binding of a key, the embedding of a Go map read. -/
def lookupA : List (String × String) → String → Option String
  | [], _ => none
  | p :: rest, key => if p.1 = key then some p.2 else lookupA rest key

/-- Keys of an association list. -/
def keysA (l : List (String × String)) : List String := l.map Prod.fst

/-- Well-formedness of a Go map embedding: each key bound at most once. -/
def NodupKeys (l : List (String × String)) : Prop := (keysA l).Nodup

instance : DecidablePred NodupKeys := fun l =>
  inferInstanceAs (Decidable (keysA l).Nodup)

/-- Extensional equality of two embedded maps. -/
def mapEqA (a b : List (String × String)) : Prop := ∀ k, lookupA a k = lookupA b k

/-- The comparison Go code performs on two maps: equal sizes and every
binding of the first present in the second (`len` check plus range loop). -/
def mapCompareA (a b : List (String × String)) : Bool :=
  if a.length = b.length then
    a.all (fun p => lookupA b p.1 = some p.2)
  else false

theorem lookupA_isSome_iff_mem_keys (l : List (String × String)) (k : String) :
    (lookupA l k).isSome ↔ k ∈ keysA l := by
  induction l with
  | nil => simp [lookupA, keysA]
  | cons hd tl ih =>
    cases hd with
    | mk k' v =>
      by_cases h : k' = k
      · subst h
        simp [lookupA, keysA]
      · simp [lookupA, keysA, h, ih]
        intro hk
        exact absurd hk.symm h

theorem lookupA_eq_some_mem {l : List (String × String)} {k v : String}
    (h : lookupA l k = some v) : (k, v) ∈ l := by
  induction l with
  | nil => simp [lookupA] at h
  | cons hd tl ih =>
    cases hd with
    | mk k' v' =>
      by_cases hk : k' = k
      · subst hk
        simp [lookupA] at h
        subst h
        exact List.mem_cons_self _ _
      · simp [lookupA, hk] at h
        exact List.mem_cons_of_mem _ (ih h)

theorem lookupA_of_mem_nodup {l : List (String × String)} {k v : String}
    (hn : NodupKeys l) (h : (k, v) ∈ l) : lookupA l k = some v := by
  induction l with
  | nil => simp at h
  | cons hd tl ih =>
    cases hd with
    | mk k' v' =>
      unfold NodupKeys keysA at hn
      simp only [List.map_cons, List.nodup_cons] at hn
      rcases List.mem_cons.mp h with heq | hmem
      · cases heq
        simp [lookupA]
      · have hk : k' ≠ k := by
          intro hkk
          subst hkk
          exact hn.1 (List.mem_map.mpr ⟨(k', v), hmem, rfl⟩)
        simp [lookupA, hk]
        exact ih hn.2 hmem

theorem lookupA_eq_none_iff (l : List (String × String)) (k : String) :
    lookupA l k = none ↔ k ∉ keysA l := by
  rw [← lookupA_isSome_iff_mem_keys]
  cases lookupA l k <;> simp

theorem keysA_length (l : List (String × String)) : (keysA l).length = l.length := by
  simp [keysA]

/-- The Go map comparison loop decides extensional equality of well-formed maps. -/
theorem mapCompareA_iff_mapEqA {a b : List (String × String)}
    (ha : NodupKeys a) (hb : NodupKeys b) :
    mapCompareA a b = true ↔ mapEqA a b := by
  constructor
  · intro h
    unfold mapCompareA at h
    split at h
    case isTrue hlen =>
      have hall := List.all_eq_true.mp h
      intro k
      cases hval : lookupA a k with
      | some v =>
        have hmem := lookupA_eq_some_mem hval
        have := hall (k, v) hmem
        have hb' : lookupA b k = some v := by simpa using this
        exact hb'.symm
      | none =>
        have hk : k ∉ keysA a := (lookupA_eq_none_iff a k).mp hval
        -- keys of a all occur among keys of b, and the key lists have equal
        -- length and no duplicates, so the key sets coincide
        have hsub : (keysA a).toFinset ⊆ (keysA b).toFinset := by
          intro x hx
          rw [List.mem_toFinset] at hx ⊢
          obtain ⟨p, hp, hpx⟩ := List.mem_map.mp hx
          have := hall p hp
          have hbx : lookupA b p.1 = some p.2 := by simpa using this
          have : (lookupA b p.1).isSome := by rw [hbx]; rfl
          rw [lookupA_isSome_iff_mem_keys] at this
          rwa [hpx] at this
        have hcard : (keysA b).toFinset.card ≤ (keysA a).toFinset.card := by
          rw [List.toFinset_card_of_nodup ha, List.toFinset_card_of_nodup hb,
            keysA_length, keysA_length, hlen]
        have hset : (keysA a).toFinset = (keysA b).toFinset :=
          Finset.eq_of_subset_of_card_le hsub hcard
        have hkb : k ∉ keysA b := by
          intro hkb
          apply hk
          have : k ∈ (keysA b).toFinset := List.mem_toFinset.mpr hkb
          rw [← hset] at this
          exact List.mem_toFinset.mp this
        rw [(lookupA_eq_none_iff b k).mpr hkb]
    case isFalse => exact absurd h (by simp)
  · intro h
    unfold mapCompareA
    have hmemkeys : ∀ x, x ∈ keysA a ↔ x ∈ keysA b := by
      intro x
      rw [← lookupA_isSome_iff_mem_keys, ← lookupA_isSome_iff_mem_keys, h x]
    have hset : (keysA a).toFinset = (keysA b).toFinset := by
      ext x
      simp [hmemkeys x]
    have hlen : a.length = b.length := by
      rw [← keysA_length a, ← keysA_length b,
        ← List.toFinset_card_of_nodup ha, ← List.toFinset_card_of_nodup hb, hset]
    simp only [hlen, if_true]
    apply List.all_eq_true.mpr
    intro p hp
    have := lookupA_of_mem_nodup ha hp
    rw [h p.1] at this
    simpa using this

/-! ## Character-level string operations

The Go string functions the sources use (strings.Split, strings.Contains,
strings.TrimSpace, strings.ToLower, strings.HasPrefix, strconv.Atoi) are
modelled over the character list of the string so that every definition
evaluates on concrete inputs. -/

/-- Whether the first list is a prefix of the second. -/
def isPfxOf : List Char → List Char → Bool
  | [], _ => true
  | _ :: _, [] => false
  | a :: as, b :: bs => a = b && isPfxOf as bs

/-- Whether pat occurs as a contiguous sublist of hay. -/
def containsSub (hay pat : List Char) : Bool :=
  isPfxOf pat hay ||
    match hay with
    | [] => false
    | _ :: t => containsSub t pat

/-- Model of strings.Contains. -/
def strContains (s pat : String) : Bool := containsSub s.toList pat.toList

/-- Model of strings.HasPrefix. -/
def strStartsWith (s pat : String) : Bool := isPfxOf pat.toList s.toList

/-- Splitting on a separator character, Go strings.Split with a one-character
separator. -/
def splitOnCharList (c : Char) : List Char → List (List Char)
  | [] => [[]]
  | a :: rest =>
    let r := splitOnCharList c rest
    if a = c then [] :: r
    else
      match r with
      | h :: t => (a :: h) :: t
      | [] => [[a]]

/-- String-level split on one character. -/
def splitOnChar (c : Char) (s : String) : List String :=
  (splitOnCharList c s.toList).map String.mk

/-- ASCII whitespace. -/
def isWhite (c : Char) : Bool := c = ' ' ∨ c = '\t' ∨ c = '\n' ∨ c = '\r'

/-- Model of strings.TrimSpace. -/
def strTrim (s : String) : String :=
  String.mk (((s.toList.dropWhile isWhite).reverse.dropWhile isWhite).reverse)

/-- Model of strings.ToLower for ASCII. -/
def strToLower (s : String) : String :=
  String.mk (s.toList.map (fun c =>
    if 'A' ≤ c ∧ c ≤ 'Z' then Char.ofNat (c.toNat + 32) else c))

/-- Dropping the first n characters, Go strings.TrimPrefix after a
HasPrefix check. -/
def strDrop (s : String) (n : Nat) : String := String.mk (s.toList.drop n)

/-- An unsigned decimal numeral. -/
def digitsToNat? (l : List Char) : Option Nat :=
  if l.isEmpty then none
  else l.foldlM (fun acc c =>
    if c.isDigit then some (acc * 10 + (c.toNat - 48)) else none) 0

/-- Model of strconv.Atoi / strconv.ParseInt(s, 10, 64): an optional sign
followed by decimal digits. -/
def strToInt? (s : String) : Option Int :=
  match s.toList with
  | '-' :: rest => (digitsToNat? rest).map (fun n => -(n : Int))
  | '+' :: rest => (digitsToNat? rest).map (fun n => (n : Int))
  | l => (digitsToNat? l).map (fun n => (n : Int))

/-- An unsigned decimal numeral at the string level. -/
def strToNat? (s : String) : Option Nat := digitsToNat? s.toList

/-! ## models/config/proxy.go: proxy configuration records -/

/-- An INI section, a Go `map[string]string` (ini.Section). -/
abbrev Section := List (String × String)

/-- Go map read without the ok flag: a missing key reads as the empty string. -/
def Section.get (s : Section) (k : String) : String := (lookupA s k).getD ""

/-- Go map read with the ok flag. -/
def Section.get? (s : Section) (k : String) : Option String := lookupA s k

/-- Go map write: replace the binding of the key or append a fresh one. -/
def Section.insert (s : Section) (k v : String) : Section :=
  if (lookupA s k).isSome then
    s.map (fun p => if p.1 = k then (k, v) else p)
  else s ++ [(k, v)]

/-- models/config LocalSvrConf. -/
structure LocalSvrConf where
  LocalIp : String := ""
  LocalPort : Int := 0
  Plugin : String := ""
  PluginParams : List (String × String) := []
  deriving DecidableEq, Repr

/-- models/config HealthCheckConf. -/
structure HealthCheckConf where
  HealthCheckType : String := ""
  HealthCheckTimeoutS : Int := 0
  HealthCheckMaxFailed : Int := 0
  HealthCheckIntervalS : Int := 0
  HealthCheckUrl : String := ""
  HealthCheckAddr : String := ""
  deriving DecidableEq, Repr

/-- models/config BaseProxyConf. -/
structure BaseProxyConf where
  ProxyName : String := ""
  ProxyType : String := ""
  UseEncryption : Bool := false
  UseCompression : Bool := false
  Group : String := ""
  GroupKey : String := ""
  ProxyProtocolVersion : String := ""
  LocalSvrConf : LocalSvrConf := {}
  HealthCheckConf : HealthCheckConf := {}
  deriving DecidableEq, Repr

/-- models/config BindInfoConf. -/
structure BindInfoConf where
  RemotePort : Int := 0
  deriving DecidableEq, Repr

/-- models/config DomainConf. -/
structure DomainConf where
  CustomDomains : List String := []
  SubDomain : String := ""
  deriving DecidableEq, Repr

/-- models/config TcpProxyConf. -/
structure TcpProxyConf where
  BaseProxyConf : BaseProxyConf := {}
  BindInfoConf : BindInfoConf := {}
  deriving DecidableEq, Repr

/-- models/config UdpProxyConf. -/
structure UdpProxyConf where
  BaseProxyConf : BaseProxyConf := {}
  BindInfoConf : BindInfoConf := {}
  deriving DecidableEq, Repr

/-- models/config HttpProxyConf. -/
structure HttpProxyConf where
  BaseProxyConf : BaseProxyConf := {}
  DomainConf : DomainConf := {}
  Locations : List String := []
  HttpUser : String := ""
  HttpPwd : String := ""
  HostHeaderRewrite : String := ""
  Headers : List (String × String) := []
  deriving DecidableEq, Repr

/-- models/config HttpsProxyConf. -/
structure HttpsProxyConf where
  BaseProxyConf : BaseProxyConf := {}
  DomainConf : DomainConf := {}
  deriving DecidableEq, Repr

/-- models/config StcpProxyConf. -/
structure StcpProxyConf where
  BaseProxyConf : BaseProxyConf := {}
  Role : String := ""
  Sk : String := ""
  deriving DecidableEq, Repr

/-- models/config XtcpProxyConf. -/
structure XtcpProxyConf where
  BaseProxyConf : BaseProxyConf := {}
  Role : String := ""
  Sk : String := ""
  deriving DecidableEq, Repr

/-- The ProxyConf interface: a tagged variant over the six concrete types. -/
inductive ProxyConf where
  | tcp (c : TcpProxyConf)
  | udp (c : UdpProxyConf)
  | http (c : HttpProxyConf)
  | https (c : HttpsProxyConf)
  | stcp (c : StcpProxyConf)
  | xtcp (c : XtcpProxyConf)
  deriving DecidableEq, Repr

/-! ### compare methods -/

/-- LocalSvrConf.compare. -/
def LocalSvrConf.compare (cfg cmp : LocalSvrConf) : Bool :=
  if cfg.LocalIp ≠ cmp.LocalIp ∨ cfg.LocalPort ≠ cmp.LocalPort then false
  else if cfg.Plugin ≠ cmp.Plugin then false
  else mapCompareA cfg.PluginParams cmp.PluginParams

/-- HealthCheckConf.compare. -/
def HealthCheckConf.compare (cfg cmp : HealthCheckConf) : Bool :=
  if cfg.HealthCheckType ≠ cmp.HealthCheckType ∨
      cfg.HealthCheckTimeoutS ≠ cmp.HealthCheckTimeoutS ∨
      cfg.HealthCheckMaxFailed ≠ cmp.HealthCheckMaxFailed ∨
      cfg.HealthCheckIntervalS ≠ cmp.HealthCheckIntervalS ∨
      cfg.HealthCheckUrl ≠ cmp.HealthCheckUrl then false
  else true

/-- BaseProxyConf.compare. -/
def BaseProxyConf.compare (cfg cmp : BaseProxyConf) : Bool :=
  if cfg.ProxyName ≠ cmp.ProxyName ∨
      cfg.ProxyType ≠ cmp.ProxyType ∨
      cfg.UseEncryption ≠ cmp.UseEncryption ∨
      cfg.UseCompression ≠ cmp.UseCompression ∨
      cfg.Group ≠ cmp.Group ∨
      cfg.GroupKey ≠ cmp.GroupKey ∨
      cfg.ProxyProtocolVersion ≠ cmp.ProxyProtocolVersion then false
  else if ¬ cfg.LocalSvrConf.compare cmp.LocalSvrConf then false
  else if ¬ cfg.HealthCheckConf.compare cmp.HealthCheckConf then false
  else true

/-- BindInfoConf.compare. -/
def BindInfoConf.compare (cfg cmp : BindInfoConf) : Bool :=
  if cfg.RemotePort ≠ cmp.RemotePort then false else true

/-- strings.Join with a single-space separator, as used by DomainConf.compare
and HttpProxyConf.Compare on the domain and location lists. -/
def joinSpace (l : List String) : String := String.intercalate " " l

/-- DomainConf.compare: the custom-domain lists are compared by their
space-joined renderings. -/
def DomainConf.compare (cfg cmp : DomainConf) : Bool :=
  if joinSpace cfg.CustomDomains ≠ joinSpace cmp.CustomDomains ∨
      cfg.SubDomain ≠ cmp.SubDomain then false
  else true

/-- TcpProxyConf.Compare (the cross-type assertion failure is the catch-all
false of ProxyConf.Compare below). -/
def TcpProxyConf.Compare (cfg cmp : TcpProxyConf) : Bool :=
  if ¬ cfg.BaseProxyConf.compare cmp.BaseProxyConf ∨
      ¬ cfg.BindInfoConf.compare cmp.BindInfoConf then false
  else true

/-- UdpProxyConf.Compare. -/
def UdpProxyConf.Compare (cfg cmp : UdpProxyConf) : Bool :=
  if ¬ cfg.BaseProxyConf.compare cmp.BaseProxyConf ∨
      ¬ cfg.BindInfoConf.compare cmp.BindInfoConf then false
  else true

/-- HttpProxyConf.Compare. -/
def HttpProxyConf.Compare (cfg cmp : HttpProxyConf) : Bool :=
  if ¬ cfg.BaseProxyConf.compare cmp.BaseProxyConf ∨
      ¬ cfg.DomainConf.compare cmp.DomainConf ∨
      joinSpace cfg.Locations ≠ joinSpace cmp.Locations ∨
      cfg.HostHeaderRewrite ≠ cmp.HostHeaderRewrite ∨
      cfg.HttpUser ≠ cmp.HttpUser ∨
      cfg.HttpPwd ≠ cmp.HttpPwd then false
  else mapCompareA cfg.Headers cmp.Headers

/-- HttpsProxyConf.Compare. -/
def HttpsProxyConf.Compare (cfg cmp : HttpsProxyConf) : Bool :=
  if ¬ cfg.BaseProxyConf.compare cmp.BaseProxyConf ∨
      ¬ cfg.DomainConf.compare cmp.DomainConf then false
  else true

/-- StcpProxyConf.Compare. -/
def StcpProxyConf.Compare (cfg cmp : StcpProxyConf) : Bool :=
  if ¬ cfg.BaseProxyConf.compare cmp.BaseProxyConf ∨
      cfg.Role ≠ cmp.Role ∨ cfg.Sk ≠ cmp.Sk then false
  else true

/-- XtcpProxyConf.Compare. -/
def XtcpProxyConf.Compare (cfg cmp : XtcpProxyConf) : Bool :=
  if ¬ cfg.BaseProxyConf.compare cmp.BaseProxyConf ∨
      ¬ cfg.BaseProxyConf.LocalSvrConf.compare cmp.BaseProxyConf.LocalSvrConf ∨
      cfg.Role ≠ cmp.Role ∨ cfg.Sk ≠ cmp.Sk then false
  else true

/-- Virtual dispatch of Compare; the type assertion in each Go method makes
any cross-type comparison false. -/
def ProxyConf.Compare : ProxyConf → ProxyConf → Bool
  | .tcp a, .tcp b => a.Compare b
  | .udp a, .udp b => a.Compare b
  | .http a, .http b => a.Compare b
  | .https a, .https b => a.Compare b
  | .stcp a, .stcp b => a.Compare b
  | .xtcp a, .xtcp b => a.Compare b
  | _, _ => false

/-! ### message-side and INI-side construction -/

/-- models/msg NewProxy (the fields read by models/config). -/
structure NewProxyMsg where
  ProxyName : String := ""
  ProxyType : String := ""
  UseEncryption : Bool := false
  UseCompression : Bool := false
  Group : String := ""
  GroupKey : String := ""
  RemotePort : Int := 0
  CustomDomains : List String := []
  SubDomain : String := ""
  Locations : List String := []
  HostHeaderRewrite : String := ""
  HttpUser : String := ""
  HttpPwd : String := ""
  Headers : List (String × String) := []
  Sk : String := ""
  deriving DecidableEq, Repr

/-- strconv.Atoi as the config parser uses it. -/
def atoi (s : String) : Option Int := strToInt? s

/-- BaseProxyConf.UnmarshalFromMsg: copies the six base fields of the message
(not the proxy-protocol version, which only the client config carries). -/
def BaseProxyConf.UnmarshalFromMsg (cfg : BaseProxyConf) (p : NewProxyMsg) : BaseProxyConf :=
  { cfg with
    ProxyName := p.ProxyName
    ProxyType := p.ProxyType
    UseEncryption := p.UseEncryption
    UseCompression := p.UseCompression
    Group := p.Group
    GroupKey := p.GroupKey }

/-- BindInfoConf.UnmarshalFromMsg. -/
def BindInfoConf.UnmarshalFromMsg (cfg : BindInfoConf) (p : NewProxyMsg) : BindInfoConf :=
  { cfg with RemotePort := p.RemotePort }

/-- DomainConf.UnmarshalFromMsg. -/
def DomainConf.UnmarshalFromMsg (cfg : DomainConf) (p : NewProxyMsg) : DomainConf :=
  { cfg with CustomDomains := p.CustomDomains, SubDomain := p.SubDomain }

/-- Virtual dispatch of UnmarshalFromMsg over the six config types. -/
def ProxyConf.UnmarshalFromMsg (cfg : ProxyConf) (p : NewProxyMsg) : ProxyConf :=
  match cfg with
  | .tcp c => .tcp { c with
      BaseProxyConf := c.BaseProxyConf.UnmarshalFromMsg p
      BindInfoConf := c.BindInfoConf.UnmarshalFromMsg p }
  | .udp c => .udp { c with
      BaseProxyConf := c.BaseProxyConf.UnmarshalFromMsg p
      BindInfoConf := c.BindInfoConf.UnmarshalFromMsg p }
  | .http c => .http { c with
      BaseProxyConf := c.BaseProxyConf.UnmarshalFromMsg p
      DomainConf := c.DomainConf.UnmarshalFromMsg p
      Locations := p.Locations
      HostHeaderRewrite := p.HostHeaderRewrite
      HttpUser := p.HttpUser
      HttpPwd := p.HttpPwd
      Headers := p.Headers }
  | .https c => .https { c with
      BaseProxyConf := c.BaseProxyConf.UnmarshalFromMsg p
      DomainConf := c.DomainConf.UnmarshalFromMsg p }
  | .stcp c => .stcp { c with
      BaseProxyConf := c.BaseProxyConf.UnmarshalFromMsg p
      Sk := p.Sk }
  | .xtcp c => .xtcp { c with
      BaseProxyConf := c.BaseProxyConf.UnmarshalFromMsg p
      Sk := p.Sk }

/-- DomainConf.check. -/
def DomainConf.check (cfg : DomainConf) : Option String :=
  if cfg.CustomDomains.length = 0 ∧ cfg.SubDomain = "" then
    some "custom_domains and subdomain should set at least one of them"
  else none

/-- The early-returning loop of DomainConf.checkForSvr over the custom domains. -/
def domainSvrLoop (subDomainHost : String) : List String → Option String
  | [] => none
  | d :: rest =>
    if subDomainHost ≠ "" ∧
        (splitOnChar '.' subDomainHost).length < (splitOnChar '.' d).length ∧
        strContains d subDomainHost = true then
      some ("custom domain [" ++ d ++ "] should not belong to subdomain_host [" ++
        subDomainHost ++ "]")
    else domainSvrLoop subDomainHost rest

/-- DomainConf.checkForSvr; subDomainHost is the config package global. -/
def DomainConf.checkForSvr (cfg : DomainConf) (subDomainHost : String) : Option String :=
  match cfg.check with
  | some e => some e
  | none =>
    match domainSvrLoop subDomainHost cfg.CustomDomains with
    | some e => some e
    | none =>
      if cfg.SubDomain ≠ "" then
        if subDomainHost = "" then
          some "subdomain is not supported because this feature is not enabled in remote frps"
        else if strContains cfg.SubDomain "." = true ∨ strContains cfg.SubDomain "*" = true then
          some "'.' and '*' is not supported in subdomain"
        else none
      else none

/-- Virtual dispatch of CheckForSvr; vhostHttpPort, vhostHttpsPort and
subDomainHost are the config package globals set from the server config. -/
def ProxyConf.CheckForSvr (cfg : ProxyConf) (vhostHttpPort vhostHttpsPort : Int)
    (subDomainHost : String) : Option String :=
  match cfg with
  | .tcp _ => none
  | .udp _ => none
  | .http c =>
    if vhostHttpPort = 0 then some "type [http] not support when vhost_http_port is not set"
    else
      match c.DomainConf.checkForSvr subDomainHost with
      | some e => some ("proxy [" ++ c.BaseProxyConf.ProxyName ++
          "] domain conf check error: " ++ e)
      | none => none
  | .https c =>
    if vhostHttpsPort = 0 then some "type [https] not support when vhost_https_port is not set"
    else
      match c.DomainConf.checkForSvr subDomainHost with
      | some e => some ("proxy [" ++ c.BaseProxyConf.ProxyName ++
          "] domain conf check error: " ++ e)
      | none => none
  | .stcp _ => none
  | .xtcp _ => none

/-- NewConfByType: the fixed table of known proxy types; an unknown type has
no entry. -/
def NewConfByType (proxyType : String) : Option ProxyConf :=
  if proxyType = "tcp" then some (.tcp {})
  else if proxyType = "udp" then some (.udp {})
  else if proxyType = "http" then some (.http {})
  else if proxyType = "https" then some (.https {})
  else if proxyType = "stcp" then some (.stcp {})
  else if proxyType = "xtcp" then some (.xtcp {})
  else none

/-- NewProxyConfFromMsg: an empty type field is rewritten to tcp before the
table lookup; the produced config is checked with CheckForSvr. -/
def NewProxyConfFromMsg (p : NewProxyMsg) (vhostHttpPort vhostHttpsPort : Int)
    (subDomainHost : String) : Except String ProxyConf :=
  let p := if p.ProxyType = "" then { p with ProxyType := "tcp" } else p
  match NewConfByType p.ProxyType with
  | none => .error ("proxy [" ++ p.ProxyName ++ "] type [" ++ p.ProxyType ++ "] error")
  | some cfg =>
    let cfg := cfg.UnmarshalFromMsg p
    match cfg.CheckForSvr vhostHttpPort vhostHttpsPort subDomainHost with
    | some e => .error e
    | none => .ok cfg

/-! ### INI-side unmarshalling -/

/-- LocalSvrConf.UnmarshalFromIni: with a plugin, collect the plugin
parameters; otherwise local_ip (defaulted to 127.0.0.1) and a required
numeric local_port. -/
def LocalSvrConf.UnmarshalFromIni (cfg : LocalSvrConf) (name : String) (sec : Section) :
    Except String LocalSvrConf :=
  let plugin := sec.get "plugin"
  if plugin ≠ "" then
    .ok { cfg with
      Plugin := plugin
      PluginParams := sec.filter (fun p => strStartsWith p.1 "plugin_") }
  else
    let localIp := if sec.get "local_ip" = "" then "127.0.0.1" else sec.get "local_ip"
    match sec.get? "local_port" with
    | some s =>
      match atoi s with
      | some v => .ok { cfg with
          Plugin := plugin
          PluginParams := []
          LocalIp := localIp
          LocalPort := v }
      | none => .error ("Parse conf error: proxy [" ++ name ++ "] local_port error")
    | none => .error ("Parse conf error: proxy [" ++ name ++ "] local_port not found")

/-- HealthCheckConf.UnmarshalFromIni. -/
def HealthCheckConf.UnmarshalFromIni (cfg : HealthCheckConf) (name : String) (sec : Section) :
    Except String HealthCheckConf :=
  let cfg := { cfg with
    HealthCheckType := sec.get "health_check_type"
    HealthCheckUrl := sec.get "health_check_url" }
  let step := fun (key : String) (cur : Except String Int) =>
    match sec.get? key with
    | some s =>
      match atoi s with
      | some v => Except.ok v
      | none => Except.error ("Parse conf error: proxy [" ++ name ++ "] " ++ key ++ " error")
    | none => cur
  match step "health_check_timeout_s" (.ok cfg.HealthCheckTimeoutS) with
  | .error e => .error e
  | .ok t =>
    match step "health_check_max_failed" (.ok cfg.HealthCheckMaxFailed) with
    | .error e => .error e
    | .ok m =>
      match step "health_check_interval_s" (.ok cfg.HealthCheckIntervalS) with
      | .error e => .error e
      | .ok i => .ok { cfg with
          HealthCheckTimeoutS := t, HealthCheckMaxFailed := m, HealthCheckIntervalS := i }

/-- BaseProxyConf.UnmarshalFromIni, the pfx argument being the user prefix. -/
def BaseProxyConf.UnmarshalFromIni (cfg : BaseProxyConf) (pfx name : String) (sec : Section) :
    Except String BaseProxyConf :=
  let cfg := { cfg with
    ProxyName := pfx ++ name
    ProxyType := sec.get "type"
    UseEncryption := sec.get? "use_encryption" = some "true"
    UseCompression := sec.get? "use_compression" = some "true"
    Group := sec.get "group"
    GroupKey := sec.get "group_key"
    ProxyProtocolVersion := sec.get "proxy_protocol_version" }
  match cfg.LocalSvrConf.UnmarshalFromIni name sec with
  | .error e => .error e
  | .ok lsc =>
    match cfg.HealthCheckConf.UnmarshalFromIni name sec with
    | .error e => .error e
    | .ok hcc =>
      let hcc :=
        if hcc.HealthCheckType = "tcp" ∧ lsc.Plugin = "" then
          { hcc with HealthCheckAddr := lsc.LocalIp ++ ":" ++ toString lsc.LocalPort }
        else hcc
      let hcc :=
        if hcc.HealthCheckType = "http" ∧ lsc.Plugin = "" ∧ hcc.HealthCheckUrl ≠ "" then
          let s := "http://" ++ lsc.LocalIp ++ ":" ++ toString lsc.LocalPort
          let s := if ¬ strStartsWith hcc.HealthCheckUrl "/" then s ++ "/" else s
          { hcc with HealthCheckUrl := s ++ hcc.HealthCheckUrl }
        else hcc
      .ok { cfg with LocalSvrConf := lsc, HealthCheckConf := hcc }

/-- BindInfoConf.UnmarshalFromIni: a required numeric remote_port. -/
def BindInfoConf.UnmarshalFromIni (cfg : BindInfoConf) (name : String) (sec : Section) :
    Except String BindInfoConf :=
  match sec.get? "remote_port" with
  | some s =>
    match atoi s with
    | some v => .ok { cfg with RemotePort := v }
    | none => .error ("Parse conf error: proxy [" ++ name ++ "] remote_port error")
  | none => .error ("Parse conf error: proxy [" ++ name ++ "] remote_port not found")

/-- DomainConf.UnmarshalFromIni: custom_domains split on commas, trimmed and
lowered; subdomain copied. -/
def DomainConf.UnmarshalFromIni (cfg : DomainConf) (sec : Section) : DomainConf :=
  let cfg :=
    match sec.get? "custom_domains" with
    | some s => { cfg with CustomDomains := (splitOnChar ',' s).map (fun d => strToLower (strTrim d)) }
    | none => cfg
  match sec.get? "subdomain" with
  | some s => { cfg with SubDomain := s }
  | none => cfg

/-- Virtual dispatch of UnmarshalFromIni over the six config types. -/
def ProxyConf.UnmarshalFromIni (cfg : ProxyConf) (pfx name : String) (sec : Section) :
    Except String ProxyConf :=
  match cfg with
  | .tcp c =>
    match c.BaseProxyConf.UnmarshalFromIni pfx name sec with
    | .error e => .error e
    | .ok b =>
      match c.BindInfoConf.UnmarshalFromIni name sec with
      | .error e => .error e
      | .ok bi => .ok (.tcp { c with BaseProxyConf := b, BindInfoConf := bi })
  | .udp c =>
    match c.BaseProxyConf.UnmarshalFromIni pfx name sec with
    | .error e => .error e
    | .ok b =>
      match c.BindInfoConf.UnmarshalFromIni name sec with
      | .error e => .error e
      | .ok bi => .ok (.udp { c with BaseProxyConf := b, BindInfoConf := bi })
  | .http c =>
    match c.BaseProxyConf.UnmarshalFromIni pfx name sec with
    | .error e => .error e
    | .ok b =>
      let d := c.DomainConf.UnmarshalFromIni sec
      let locations :=
        match sec.get? "locations" with
        | some s => splitOnChar ',' s
        | none => [""]
      .ok (.http { c with
        BaseProxyConf := b
        DomainConf := d
        Locations := locations
        HostHeaderRewrite := sec.get "host_header_rewrite"
        HttpUser := sec.get "http_user"
        HttpPwd := sec.get "http_pwd"
        Headers := (sec.filter (fun p => strStartsWith p.1 "header_")).map
          (fun p => (strDrop p.1 "header_".length, p.2)) })
  | .https c =>
    match c.BaseProxyConf.UnmarshalFromIni pfx name sec with
    | .error e => .error e
    | .ok b =>
      let d := c.DomainConf.UnmarshalFromIni sec
      .ok (.https { c with BaseProxyConf := b, DomainConf := d })
  | .stcp c =>
    match c.BaseProxyConf.UnmarshalFromIni pfx name sec with
    | .error e => .error e
    | .ok b =>
      let role := sec.get "role"
      if role ≠ "server" then
        .error ("Parse conf error: proxy [" ++ name ++ "] incorrect role [" ++ role ++ "]")
      else
        match b.LocalSvrConf.UnmarshalFromIni name sec with
        | .error e => .error e
        | .ok lsc => .ok (.stcp { c with
            BaseProxyConf := { b with LocalSvrConf := lsc }
            Role := role
            Sk := sec.get "sk" })
  | .xtcp c =>
    match c.BaseProxyConf.UnmarshalFromIni pfx name sec with
    | .error e => .error e
    | .ok b =>
      let role := sec.get "role"
      if role ≠ "server" then
        .error ("Parse conf error: proxy [" ++ name ++ "] incorrect role [" ++ role ++ "]")
      else
        match b.LocalSvrConf.UnmarshalFromIni name sec with
        | .error e => .error e
        | .ok lsc => .ok (.xtcp { c with
            BaseProxyConf := { b with LocalSvrConf := lsc }
            Role := role
            Sk := sec.get "sk" })

/-- LocalSvrConf.checkForCli. -/
def LocalSvrConf.checkForCli (cfg : LocalSvrConf) : Option String :=
  if cfg.Plugin = "" then
    if cfg.LocalIp = "" then some "local ip or plugin is required"
    else if cfg.LocalPort ≤ 0 then some "error local_port"
    else none
  else none

/-- HealthCheckConf.checkForCli. -/
def HealthCheckConf.checkForCli (cfg : HealthCheckConf) : Option String :=
  if cfg.HealthCheckType ≠ "" ∧ cfg.HealthCheckType ≠ "tcp" ∧ cfg.HealthCheckType ≠ "http" then
    some "unsupport health check type"
  else if cfg.HealthCheckType = "http" ∧ cfg.HealthCheckUrl = "" then
    some "health_check_url is required for health check type 'http'"
  else none

/-- BaseProxyConf.checkForCli. -/
def BaseProxyConf.checkForCli (cfg : BaseProxyConf) : Option String :=
  if cfg.ProxyProtocolVersion ≠ "" ∧ cfg.ProxyProtocolVersion ≠ "v1" ∧
      cfg.ProxyProtocolVersion ≠ "v2" then
    some ("no support proxy protocol version: " ++ cfg.ProxyProtocolVersion)
  else
    match cfg.LocalSvrConf.checkForCli with
    | some e => some e
    | none => cfg.HealthCheckConf.checkForCli

/-- Virtual dispatch of CheckForCli over the six config types. -/
def ProxyConf.CheckForCli (cfg : ProxyConf) : Option String :=
  match cfg with
  | .tcp c => c.BaseProxyConf.checkForCli
  | .udp c => c.BaseProxyConf.checkForCli
  | .http c =>
    match c.BaseProxyConf.checkForCli with
    | some e => some e
    | none => c.DomainConf.check
  | .https c =>
    match c.BaseProxyConf.checkForCli with
    | some e => some e
    | none => c.DomainConf.check
  | .stcp c =>
    match c.BaseProxyConf.checkForCli with
    | some e => some e
    | none => if c.Role ≠ "server" then some "role should be 'server'" else none
  | .xtcp c =>
    match c.BaseProxyConf.checkForCli with
    | some e => some e
    | none => if c.Role ≠ "server" then some "role should be 'server'" else none

/-- NewProxyConfFromIni: an empty type key is rewritten to tcp in the section
before the table lookup; the produced config is checked with CheckForCli. -/
def NewProxyConfFromIni (pfx name : String) (sec : Section) : Except String ProxyConf :=
  let proxyType := sec.get "type"
  let pair :=
    if proxyType = "" then ("tcp", sec.insert "type" "tcp") else (proxyType, sec)
  match NewConfByType pair.1 with
  | none => .error ("proxy [" ++ name ++ "] type [" ++ pair.1 ++ "] error")
  | some cfg =>
    match cfg.UnmarshalFromIni pfx name pair.2 with
    | .error e => .error e
    | .ok cfg =>
      match cfg.CheckForCli with
      | some e => .error e
      | none => .ok cfg

/-! ### range sections -/

/-- Decimal digits to a number; the model of one item of a range string. -/
def parsePortItem (s : String) : Option Int := atoi s

/-- The integers from low to high inclusive. -/
def intRange (low high : Int) : List Int :=
  (List.range (high + 1 - low).toNat).map (fun i => low + (i : Int))

/-- Modelled from the spec: util.ParseRangeNumbers (utils/util is not under
src/) parses a string such as 7000-7002,8000 into the list of numbers it
denotes: comma-separated items, each either a single decimal number or an
inclusive dash range; a malformed item or an inverted range fails. -/
def ParseRangeNumbers (s : String) : Except String (List Int) :=
  let items := splitOnChar ',' (strTrim s)
  items.foldlM (fun acc item =>
    match splitOnChar '-' (strTrim item) with
    | [a] =>
      match parsePortItem (strTrim a) with
      | some v => Except.ok (acc ++ [v])
      | none => Except.error "range number is invalid"
    | [a, b] =>
      match parsePortItem (strTrim a), parsePortItem (strTrim b) with
      | some low, some high =>
        if high < low then Except.error "range number is invalid"
        else Except.ok (acc ++ intRange low high)
      | _, _ => Except.error "range number is invalid"
    | _ => Except.error "range number is invalid") []

/-- ParseRangeSection: expands a range section into one sub-section per port
pair, named by index, pairing local and remote ports positionally. The
sub-sections are produced in index order. -/
def ParseRangeSection (name : String) (sec : Section) :
    Except String (List (String × Section)) :=
  match ParseRangeNumbers (sec.get "local_port") with
  | .error e => .error ("Parse conf error: range section [" ++ name ++
      "] local_port invalid, " ++ e)
  | .ok localPorts =>
    match ParseRangeNumbers (sec.get "remote_port") with
    | .error e => .error ("Parse conf error: range section [" ++ name ++
        "] remote_port invalid, " ++ e)
    | .ok remotePorts =>
      if localPorts.length ≠ remotePorts.length then
        .error ("Parse conf error: range section [" ++ name ++
          "] local ports number should be same with remote ports number")
      else if localPorts.length = 0 then
        .error ("Parse conf error: range section [" ++ name ++
          "] local_port and remote_port is necessary")
      else
        .ok ((localPorts.zip remotePorts).enum.map (fun p =>
          (name ++ "_" ++ toString p.1,
            (sec.insert "local_port" (toString p.2.1)).insert
              "remote_port" (toString p.2.2))))

/-! ## Server service (src/unnamed/part_000, package server) -/

/-- models/msg Login (the fields RegisterControl reads). -/
structure LoginMsg where
  Version : String := ""
  User : String := ""
  PrivilegeKey : String := ""
  Timestamp : Int := 0
  RunId : String := ""
  deriving DecidableEq, Repr

/-- The server configuration fields RegisterControl reads. -/
structure ServerCfg where
  Token : String := ""
  EnableApi : Bool := false
  deriving DecidableEq, Repr

/-- The externally observable steps of a login registration, in program order. -/
inductive CtlEvent where
  | startOldShutdown
  | installNew
  | waitOldDone
  | startNew
  deriving DecidableEq, Repr

/-- The control manager map: run id to the identity of its control session. -/
def CtlMap := String → Option Nat

/-- Modelled from the spec: ControlManager.Add (server/control.go is not under
src/; the call sites in src/unnamed/part_000 fix its contract) evicts the
prior control of the run id by starting its shutdown, installs the new
control in the map under the same lock, and returns the evicted control. -/
def ControlManager.Add (m : CtlMap) (runId : String) (ctl : Nat) :
    CtlMap × Option Nat × List CtlEvent :=
  let old := m runId
  ((fun r => if r = runId then some ctl else m r), old,
    (if old.isSome then [CtlEvent.startOldShutdown] else []) ++ [CtlEvent.installNew])

/-- The outcome of external collaborators of the EnableApi branch
(extend/api, not part of the verified core). -/
structure ApiModel where
  newServiceErr : Option String := none
  checkToken : Int → Except String Bool := fun _ => .ok true
  proxyLimit : Int → Except String (Nat × Nat) := fun _ => .ok (0, 0)

/-- The username pattern of the EnableApi branch: one to thirty-two
ASCII letters or digits. -/
def userRegexMatch (u : String) : Bool :=
  1 ≤ u.length ∧ u.length ≤ 32 ∧ u.toList.all (fun c => c.isAlpha ∨ c.isDigit)

/-- What RegisterControl returns on success. -/
structure RegisterOutcome where
  ctls : CtlMap
  runId : String
  events : List CtlEvent

/-- The EnableApi branch of RegisterControl: the username pattern check and
the two external API calls, each error-propagating. Returns the error that
aborts the registration, if any. -/
def registerApiGate (api : ApiModel) (now : Int) (cfg : ServerCfg) (login : LoginMsg) :
    Option String :=
  if cfg.EnableApi then
    match api.newServiceErr with
    | some e => some e
    | none =>
      if ¬ userRegexMatch login.User then some "invalid username"
      else
        match api.checkToken now with
        | .error e => some e
        | .ok false => some "authorization failed"
        | .ok true =>
          match api.proxyLimit now with
          | .error e => some e
          | .ok _ => none
  else none

/-- Service.RegisterControl. compat stands for version.Compat and getAuthKey
for util.GetAuthKey (both in utils/, outside src/); randId is the value of
util.RandId, newCtl the identity of the freshly built control; now is
time.Now().Unix(), read only in the EnableApi branch. -/
def RegisterControl (compat : String → Bool) (getAuthKey : String → Int → String)
    (api : ApiModel) (randId : String) (newCtl : Nat) (now : Int)
    (cfg : ServerCfg) (ctls : CtlMap) (login : LoginMsg) :
    Except String RegisterOutcome :=
  if ¬ compat login.Version then .error "incompatible version"
  else if getAuthKey cfg.Token login.Timestamp ≠ login.PrivilegeKey then
    .error "authorization failed"
  else
    match registerApiGate api now cfg login with
    | some e => .error e
    | none =>
      let runId := if login.RunId = "" then login.User ++ "-" ++ randId else login.RunId
      let added := ControlManager.Add ctls runId newCtl
      let events := added.2.2 ++
        (if added.2.1.isSome then [CtlEvent.waitOldDone] else []) ++ [CtlEvent.startNew]
      .ok ⟨added.1, runId, events⟩

/-- What the login branch of Service.HandleListener writes on the transport. -/
inductive ConnAction where
  | writeLoginResp (version : String) (errText : String)
  | closeConn
  deriving DecidableEq, Repr

/-- The Login case of the dealFn closure in Service.HandleListener: on a
registration error, reply with a LoginResp carrying the error text and close
the connection; on success the control map is updated and the success
response is left to the control's own worker. -/
def HandleListenerLogin (compat : String → Bool) (getAuthKey : String → Int → String)
    (api : ApiModel) (randId : String) (newCtl : Nat) (now : Int)
    (serverVersion : String) (cfg : ServerCfg) (ctls : CtlMap) (login : LoginMsg) :
    CtlMap × List ConnAction :=
  match RegisterControl compat getAuthKey api randId newCtl now cfg ctls login with
  | .error e => (ctls, [.writeLoginResp serverVersion e, .closeConn])
  | .ok o => (o.ctls, [])

/-! ## Server proxy manager (src/unnamed/part_000, package proxy) -/

/-- The server proxy map: proxy name to the identity of its Proxy. -/
def PxyMap := String → Option Nat

/-- ProxyManager.Add: a name collision fails and leaves the map untouched;
a fresh name is inserted. The second component is the returned error. -/
def ProxyManager.Add (m : PxyMap) (name : String) (pxy : Nat) : PxyMap × Option String :=
  if (m name).isSome then
    (m, some ("proxy name [" ++ name ++ "] is already in use"))
  else
    ((fun r => if r = name then some pxy else m r), none)

/-! ## Client control loop (src/unnamed/part_000, package client) -/

/-- The client configuration fields Control.msgHandler reads (seconds). -/
structure ClientCommonCfg where
  HeartBeatInterval : Nat := 30
  HeartBeatTimeout : Nat := 90
  deriving DecidableEq, Repr

/-- The interval, in seconds, of the hbCheck ticker of Control.msgHandler
(time.NewTicker(time.Second)). -/
def hbCheckIntervalSeconds : Nat := 1

/-- Messages the handler puts on the send channel. -/
inductive OutMsg where
  | ping
  deriving DecidableEq, Repr

/-- Messages arriving on the read channel that the handler dispatches on. -/
inductive CtlInMsg where
  | reqWorkConn
  | newProxyResp
  | pong
  deriving DecidableEq, Repr

/-- One wake-up of the select loop of Control.msgHandler. -/
inductive HandlerEvent where
  | hbSendTick
  | hbCheckTick (now : Nat)
  | readMsg (m : CtlInMsg) (now : Nat)
  | readChClosed
  deriving DecidableEq, Repr

/-- The loop state of Control.msgHandler: whether the loop is still running,
whether it closed the control socket, the last-pong instant and the
messages put on the send channel. -/
structure HandlerState where
  running : Bool := true
  connClosed : Bool := false
  lastPong : Nat := 0
  sent : List OutMsg := []
  deriving DecidableEq, Repr

/-- One iteration of the select loop of Control.msgHandler. A send tick
queues a heartbeat Ping; a check tick closes the control socket and leaves
the loop when the time since the last Pong exceeds the heartbeat timeout;
a Pong refreshes lastPong; a closed read channel leaves the loop. After the
loop has returned, further events change nothing. -/
def Control.msgHandlerStep (cfg : ClientCommonCfg) (s : HandlerState)
    (e : HandlerEvent) : HandlerState :=
  if ¬ s.running then s
  else
    match e with
    | .hbSendTick => { s with sent := s.sent ++ [.ping] }
    | .hbCheckTick now =>
      if now - s.lastPong > cfg.HeartBeatTimeout then
        { s with running := false, connClosed := true }
      else s
    | .readMsg .pong now => { s with lastPong := now }
    | .readMsg .reqWorkConn _ => s
    | .readMsg .newProxyResp _ => s
    | .readChClosed => { s with running := false }

/-- Folding a whole schedule of wake-ups through the handler loop. -/
def Control.msgHandlerRun (cfg : ClientCommonCfg) (s : HandlerState)
    (evs : List HandlerEvent) : HandlerState :=
  evs.foldl (Control.msgHandlerStep cfg) s

/-! ## Client UDP proxy (src/client/proxy/proxy.go) -/

/-- The fields of UdpProxy that Close touches. For each resource, none means
the Go field is nil, some b a present resource whose closed flag is b. -/
structure UdpProxyState where
  closed : Bool := false
  workConn : Option Bool := none
  readCh : Option Bool := none
  sendCh : Option Bool := none
  deriving DecidableEq, Repr

/-- UdpProxy.Close: guarded by the closed flag, it closes the work connection
and both channels once; a second call finds closed set and does nothing. -/
def UdpProxy.Close (s : UdpProxyState) : UdpProxyState :=
  if ¬ s.closed then
    { closed := true
      workConn := s.workConn.map (fun _ => true)
      readCh := s.readCh.map (fun _ => true)
      sendCh := s.sendCh.map (fun _ => true) }
  else s

/-! ## PROXY protocol header (src/client/proxy/proxy.go, HandleTcpWorkConnection) -/

/-- Model of a Go net.IP value: invalid (nil), an IPv4 address, or an IPv6
address given by its eight 16-bit groups. -/
inductive GoIP where
  | invalid
  | v4 (a b c d : Nat)
  | v6 (groups : List Nat)
  deriving DecidableEq, Repr

/-- Model of Go net.IP.To16: the 16-byte form of any valid address — an IPv4
address is mapped into the IPv6 space — and nil exactly for an invalid one. -/
def GoIP.To16 : GoIP → Option (List Nat)
  | .invalid => none
  | .v4 a b c d => some ([0, 0, 0, 0, 0, 0, 0, 0, 0, 0, 255, 255] ++ [a, b, c, d])
  | .v6 gs => some (gs.flatMap (fun g => [g / 256, g % 256]))

/-- One hexadecimal digit. -/
def hexDigit? (c : Char) : Option Nat :=
  if c.isDigit then some (c.toNat - 48)
  else if 'a' ≤ c ∧ c ≤ 'f' then some (c.toNat - 87)
  else if 'A' ≤ c ∧ c ≤ 'F' then some (c.toNat - 55)
  else none

/-- A hexadecimal group of an IPv6 literal. -/
def hexNat? (s : String) : Option Nat :=
  if s.isEmpty then none
  else s.toList.foldlM (fun acc c => (hexDigit? c).map (fun d => acc * 16 + d)) 0

/-- Model of Go net.ParseIP for the shapes the proxies meet: a dotted quad
parses as IPv4, a full eight-group colon-hex literal as IPv6, anything else
is invalid (nil). -/
def parseIP (s : String) : GoIP :=
  if strContains s "." = true ∧ strContains s ":" = false then
    match ((splitOnChar '.' s).mapM strToNat?) with
    | some [a, b, c, d] =>
      if a ≤ 255 ∧ b ≤ 255 ∧ c ≤ 255 ∧ d ≤ 255 then .v4 a b c d else .invalid
    | _ => .invalid
  else if strContains s ":" = true then
    match ((splitOnChar ':' s).mapM hexNat?) with
    | some gs => if gs.length = 8 ∧ gs.all (· ≤ 65535) then .v6 gs else .invalid
    | _ => .invalid
  else .invalid

/-- go-proxyproto transport protocols used here. -/
inductive TransportProtocol where
  | TCPv4
  | TCPv6
  | unspec
  deriving DecidableEq, Repr

/-- The go-proxyproto header fields HandleTcpWorkConnection fills in. -/
structure PPHeader where
  Version : Nat := 0
  TransportProtocol : TransportProtocol := .unspec
  SourceAddress : GoIP := .invalid
  SourcePort : Nat := 0
  DestinationAddress : GoIP := .invalid
  DestinationPort : Nat := 0
  deriving DecidableEq, Repr

/-- models/msg StartWorkConn. -/
structure StartWorkConnMsg where
  ProxyName : String := ""
  SrcAddr : String := ""
  DstAddr : String := ""
  SrcPort : Nat := 0
  DstPort : Nat := 0
  deriving DecidableEq, Repr

/-- The PROXY-protocol decision of HandleTcpWorkConnection: with a configured
proxy_protocol_version and a known source (nonempty address, nonzero port),
build the header — destination defaulted to 127.0.0.1, transport chosen by
the To16-is-nil test on the parsed source address, version from the
configured string; otherwise no header. -/
def proxyProtocolHeader (ppv : String) (m : StartWorkConnMsg) : Option PPHeader :=
  if ppv ≠ "" then
    if m.SrcAddr ≠ "" ∧ m.SrcPort ≠ 0 then
      let dstAddr := if m.DstAddr = "" then "127.0.0.1" else m.DstAddr
      let src := parseIP m.SrcAddr
      some
        { Version := if ppv = "v1" then 1 else if ppv = "v2" then 2 else 0
          TransportProtocol := if src.To16 = none then .TCPv4 else .TCPv6
          SourceAddress := src
          SourcePort := m.SrcPort
          DestinationAddress := parseIP dstAddr
          DestinationPort := m.DstPort }
    else none
  else none

/-- What HandleTcpWorkConnection writes to the freshly dialed local
connection on the plugin-less path, in order: the PROXY-protocol header
bytes when one was built, then the spliced user bytes of frpIo.Join. -/
inductive LocalWrite where
  | headerBytes (h : PPHeader)
  | forwardedUserBytes
  deriving DecidableEq, Repr

/-- The ordered writes HandleTcpWorkConnection performs on the local
connection. -/
def HandleTcpWorkConnectionLocalWrites (ppv : String) (m : StartWorkConnMsg) :
    List LocalWrite :=
  match proxyProtocolHeader ppv m with
  | some h => [.headerBytes h, .forwardedUserBytes]
  | none => [.forwardedUserBytes]

/-! ## Helper lemmas about Section.insert -/

theorem lookupA_replace_self (tl : List (String × String)) (k v : String) :
    lookupA (tl.map (fun p => if p.1 = k then (k, v) else p)) k =
      (lookupA tl k).map (fun _ => v) := by
  induction tl with
  | nil => rfl
  | cons hd tl ih =>
    obtain ⟨k', v'⟩ := hd
    by_cases hk : k' = k
    · subst hk
      simp [lookupA]
    · simp [lookupA, hk, ih]

theorem lookupA_replace_other (tl : List (String × String)) (k v key : String)
    (h : key ≠ k) :
    lookupA (tl.map (fun p => if p.1 = k then (k, v) else p)) key = lookupA tl key := by
  induction tl with
  | nil => rfl
  | cons hd tl ih =>
    obtain ⟨k', v'⟩ := hd
    by_cases hk : k' = k
    · subst hk
      simp [lookupA, Ne.symm h, ih]
    · by_cases hkey : k' = key
      · subst hkey
        simp [lookupA, hk]
      · simp [lookupA, hk, hkey, ih]

theorem lookupA_append_single (tl : List (String × String)) (k v key : String) :
    lookupA (tl ++ [(k, v)]) key =
      ((lookupA tl key).orElse (fun _ => if k = key then some v else none)) := by
  induction tl with
  | nil => simp [lookupA]
  | cons hd tl ih =>
    obtain ⟨k', v'⟩ := hd
    by_cases hkey : k' = key
    · simp [lookupA, hkey]
    · simp [lookupA, hkey, ih]

theorem lookupA_insert (s : Section) (k v : String) :
    lookupA (Section.insert s k v) k = some v := by
  unfold Section.insert
  split
  case isTrue h =>
    rw [lookupA_replace_self]
    cases hx : lookupA s k with
    | none => rw [hx] at h; simp at h
    | some w => rfl
  case isFalse h =>
    rw [lookupA_append_single]
    cases hx : lookupA s k with
    | none => simp
    | some w => rw [hx] at h; simp at h

theorem lookupA_insert_ne (s : Section) (k v key : String) (h : key ≠ k) :
    lookupA (Section.insert s k v) key = lookupA s key := by
  unfold Section.insert
  split
  · exact lookupA_replace_other s k v key h
  · rw [lookupA_append_single]
    cases hx : lookupA s key with
    | none => simp [Ne.symm h]
    | some w => rfl

theorem Section.get_insert (s : Section) (k v : String) :
    Section.get (Section.insert s k v) k = v := by
  unfold Section.get
  rw [lookupA_insert]
  rfl

/-! ## Claim theorems -/

/-- C5: adding a proxy under a name already present in the server proxy map
fails with an error and leaves every entry unchanged; adding under a fresh
name succeeds, binds exactly that name, and changes no other entry. -/
theorem C5_proxyManager_add (m : PxyMap) (name : String) (p : Nat) :
    ((m name).isSome = true →
      (ProxyManager.Add m name p).2.isSome = true ∧
      ∀ r, (ProxyManager.Add m name p).1 r = m r) ∧
    (m name = none →
      (ProxyManager.Add m name p).2 = none ∧
      (ProxyManager.Add m name p).1 name = some p ∧
      ∀ r, r ≠ name → (ProxyManager.Add m name p).1 r = m r) := by
  constructor
  · intro h
    unfold ProxyManager.Add
    rw [if_pos h]
    exact ⟨rfl, fun _ => rfl⟩
  · intro h
    unfold ProxyManager.Add
    rw [if_neg (by simp [h])]
    refine ⟨rfl, by simp, fun r hr => ?_⟩
    simp [if_neg hr]

/-- A concrete proxy map with one registered proxy. -/
def pm0 : PxyMap := fun r => if r = "web" then some 7 else none

/-- C5 witness: both branches of the theorem at concrete inputs. -/
theorem C5_proxyManager_add_witness :
    ((ProxyManager.Add pm0 "web" 9).2.isSome = true ∧
      (ProxyManager.Add pm0 "web" 9).1 "web" = some 7) ∧
    ((ProxyManager.Add pm0 "ssh" 9).2 = none ∧
      (ProxyManager.Add pm0 "ssh" 9).1 "ssh" = some 9 ∧
      (ProxyManager.Add pm0 "ssh" 9).1 "web" = some 7) := by
  have h1 := (C5_proxyManager_add pm0 "web" 9).1 (by rfl)
  have h2 := (C5_proxyManager_add pm0 "ssh" 9).2 (by rfl)
  exact ⟨⟨h1.1, (h1.2 "web").trans rfl⟩,
    ⟨h2.1, h2.2.1, (h2.2.2 "web" (by decide)).trans rfl⟩⟩

/-- C6: in RegisterControl, a login whose run_id is empty is issued the run
id user-dash-random, and a nonempty run_id is kept unchanged. -/
theorem C6_runId_issue (compat : String → Bool) (getAuthKey : String → Int → String)
    (api : ApiModel) (randId : String) (newCtl : Nat) (now : Int)
    (cfg : ServerCfg) (ctls : CtlMap) (login : LoginMsg) :
    (login.RunId = "" →
      ∀ o, RegisterControl compat getAuthKey api randId newCtl now cfg ctls login = .ok o →
        o.runId = login.User ++ "-" ++ randId) ∧
    (login.RunId ≠ "" →
      ∀ o, RegisterControl compat getAuthKey api randId newCtl now cfg ctls login = .ok o →
        o.runId = login.RunId) := by
  unfold RegisterControl
  constructor
  · intro hempty o h
    split at h
    · exact absurd h (by simp)
    · split at h
      · exact absurd h (by simp)
      · split at h
        · exact absurd h (by simp)
        · cases h
          simp [hempty]
  · intro hne o h
    split at h
    · exact absurd h (by simp)
    · split at h
      · exact absurd h (by simp)
      · split at h
        · exact absurd h (by simp)
        · cases h
          simp [if_neg hne]

/-- A version-compatibility predicate accepting everything, standing for
version.Compat in concrete witnesses. -/
def wCompat : String → Bool := fun _ => true

/-- A concrete stand-in for util.GetAuthKey in witnesses: an injective pairing
of token and timestamp. -/
def wAuthKey : String → Int → String := fun t ts => t ++ ":" ++ toString ts

/-- A concrete fresh login (empty run id). -/
def wLoginFresh : LoginMsg :=
  { Version := "0.1", User := "u", PrivilegeKey := wAuthKey "tok" 3, Timestamp := 3, RunId := "" }

/-- A concrete re-login carrying its run id. -/
def wLoginKeep : LoginMsg :=
  { Version := "0.1", User := "u", PrivilegeKey := wAuthKey "tok" 3, Timestamp := 3,
    RunId := "u-old" }

/-- The outcome of registering the fresh login. -/
def wOutFresh : RegisterOutcome :=
  match RegisterControl wCompat wAuthKey {} "r16" 1 99 { Token := "tok" }
      (fun _ => none) wLoginFresh with
  | .ok o => o
  | .error _ => ⟨fun _ => none, "", []⟩

/-- The outcome of registering the re-login. -/
def wOutKeep : RegisterOutcome :=
  match RegisterControl wCompat wAuthKey {} "r16" 1 99 { Token := "tok" }
      (fun _ => none) wLoginKeep with
  | .ok o => o
  | .error _ => ⟨fun _ => none, "", []⟩

/-- C6 witness: the issued and the kept run id at concrete logins. -/
theorem C6_runId_issue_witness :
    wOutFresh.runId = "u" ++ "-" ++ "r16" ∧ wOutKeep.runId = "u-old" := by
  constructor
  · exact (C6_runId_issue wCompat wAuthKey {} "r16" 1 99 { Token := "tok" }
      (fun _ => none) wLoginFresh).1 (by rfl) wOutFresh rfl
  · exact (C6_runId_issue wCompat wAuthKey {} "r16" 1 99 { Token := "tok" }
      (fun _ => none) wLoginKeep).2 (by decide) wOutKeep rfl

/-- C9: UdpProxy.Close is idempotent: the first call closes the work
connection and both channels and sets the closed flag; a call on an
already-closed proxy changes nothing; hence two Closes equal one. -/
theorem C9_udpProxy_close_idempotent (s : UdpProxyState) :
    (s.closed = false →
      (UdpProxy.Close s).closed = true ∧
      (UdpProxy.Close s).workConn = s.workConn.map (fun _ => true) ∧
      (UdpProxy.Close s).readCh = s.readCh.map (fun _ => true) ∧
      (UdpProxy.Close s).sendCh = s.sendCh.map (fun _ => true)) ∧
    (s.closed = true → UdpProxy.Close s = s) ∧
    UdpProxy.Close (UdpProxy.Close s) = UdpProxy.Close s := by
  by_cases h : s.closed = true
  · have hcl : UdpProxy.Close s = s := by
      unfold UdpProxy.Close
      rw [if_neg (by simp [h])]
    refine ⟨fun hf => ?_, fun _ => hcl, by rw [hcl, hcl]⟩
    rw [h] at hf
    cases hf
  · have h' : s.closed = false := by simpa using h
    have hone : UdpProxy.Close s =
        { closed := true
          workConn := s.workConn.map (fun _ => true)
          readCh := s.readCh.map (fun _ => true)
          sendCh := s.sendCh.map (fun _ => true) } := by
      unfold UdpProxy.Close
      rw [if_pos (by simp [h'])]
    have htwo : UdpProxy.Close (UdpProxy.Close s) = UdpProxy.Close s := by
      rw [hone]
      unfold UdpProxy.Close
      rw [if_neg (by simp)]
    refine ⟨fun _ => ?_, fun hc => absurd hc h, htwo⟩
    rw [hone]
    exact ⟨rfl, rfl, rfl, rfl⟩

/-- A concrete open UDP proxy with live resources. -/
def udp0 : UdpProxyState :=
  { closed := false, workConn := some false, readCh := some false, sendCh := some false }

/-- C9 witness: the theorem instantiated at an open proxy and its closure. -/
theorem C9_udpProxy_close_idempotent_witness :
    ((UdpProxy.Close udp0).closed = true ∧
      (UdpProxy.Close udp0).workConn = some true) ∧
    UdpProxy.Close (UdpProxy.Close udp0) = UdpProxy.Close udp0 ∧
    UdpProxy.Close (UdpProxy.Close udp0) = UdpProxy.Close udp0 := by
  have h1 := (C9_udpProxy_close_idempotent udp0).1 (by rfl)
  have h2 := (C9_udpProxy_close_idempotent (UdpProxy.Close udp0)).2.1 h1.1
  exact ⟨⟨h1.1, h1.2.1.trans rfl⟩, h2, (C9_udpProxy_close_idempotent udp0).2.2⟩

/-- C7: the msgHandler loop compares the time since the last Pong against
the heartbeat timeout on each tick of its one-second check ticker; once it
exceeds the timeout the control socket is closed and the loop exits, after
which no event — in particular no heartbeat-send tick — adds a message to
the send channel; a Pong received at instant now resets lastPong to now. -/
theorem C7_heartbeat_timeout (cfg : ClientCommonCfg) (s : HandlerState) (now : Nat) :
    hbCheckIntervalSeconds = 1 ∧
    (s.running = true → now - s.lastPong > cfg.HeartBeatTimeout →
      Control.msgHandlerStep cfg s (.hbCheckTick now) =
        { s with running := false, connClosed := true }) ∧
    (s.running = true → now - s.lastPong ≤ cfg.HeartBeatTimeout →
      Control.msgHandlerStep cfg s (.hbCheckTick now) = s) ∧
    (s.running = false → ∀ evs, Control.msgHandlerRun cfg s evs = s) ∧
    (s.running = true →
      Control.msgHandlerStep cfg s (.readMsg .pong now) = { s with lastPong := now }) := by
  refine ⟨rfl, ?_, ?_, ?_, ?_⟩
  · intro hrun htime
    unfold Control.msgHandlerStep
    rw [if_neg (by simp [hrun])]
    simp only [if_pos htime]
  · intro hrun htime
    unfold Control.msgHandlerStep
    rw [if_neg (by simp [hrun])]
    simp only [if_neg (by omega : ¬ now - s.lastPong > cfg.HeartBeatTimeout)]
  · intro hstop evs
    induction evs with
    | nil => rfl
    | cons e rest ih =>
      have hstep : Control.msgHandlerStep cfg s e = s := by
        unfold Control.msgHandlerStep
        rw [if_pos (by simp [hstop])]
      unfold Control.msgHandlerRun at ih ⊢
      simpa [hstep] using ih
  · intro hrun
    unfold Control.msgHandlerStep
    rw [if_neg (by simp [hrun])]

/-- A concrete handler state whose last Pong is long past. -/
def hs0 : HandlerState := { running := true, connClosed := false, lastPong := 5, sent := [] }

/-- C7 witness: timeout, close and silence afterwards, and a Pong refresh,
at concrete instants with the default 90-second timeout. -/
theorem C7_heartbeat_timeout_witness :
    Control.msgHandlerStep {} hs0 (.hbCheckTick 100) =
      { hs0 with running := false, connClosed := true } ∧
    Control.msgHandlerRun {} { hs0 with running := false, connClosed := true }
      [.hbSendTick, .hbSendTick] = { hs0 with running := false, connClosed := true } ∧
    Control.msgHandlerStep {} hs0 (.readMsg .pong 50) = { hs0 with lastPong := 50 } := by
  refine ⟨(C7_heartbeat_timeout {} hs0 100).2.1 rfl (by decide), ?_, ?_⟩
  · exact (C7_heartbeat_timeout {} { hs0 with running := false, connClosed := true } 0).2.2.2.1
      rfl [.hbSendTick, .hbSendTick]
  · exact (C7_heartbeat_timeout {} hs0 50).2.2.2.2 rfl

/-- Whether a registration attempt succeeded. -/
def registrationOk (r : Except String RegisterOutcome) : Bool :=
  match r with
  | .ok _ => true
  | .error _ => false

/-- With the external API disabled, the EnableApi gate never aborts. -/
theorem registerApiGate_disabled (api : ApiModel) (now : Int) (cfg : ServerCfg)
    (login : LoginMsg) (h : cfg.EnableApi = false) :
    registerApiGate api now cfg login = none := by
  unfold registerApiGate
  rw [if_neg (by simp [h])]

/-- C1 (amended): on a successful re-login under a run_id, RegisterControl
installs the new session in the control manager — replacing the prior entry
in the same locked step that starts the prior session's shutdown — and only
then waits for the prior session's shutdown to finish before starting the
new session; every other run_id keeps its entry, so the manager maps each
run_id to at most one control session at any instant. -/
theorem C1_relogin_eviction (compat : String → Bool) (getAuthKey : String → Int → String)
    (api : ApiModel) (randId : String) (newCtl : Nat) (now : Int)
    (cfg : ServerCfg) (ctls : CtlMap) (login : LoginMsg) (o : RegisterOutcome) :
    login.RunId ≠ "" →
    RegisterControl compat getAuthKey api randId newCtl now cfg ctls login = .ok o →
    ((ctls login.RunId).isSome = true →
      o.events = [.startOldShutdown, .installNew, .waitOldDone, .startNew]) ∧
    (ctls login.RunId = none → o.events = [.installNew, .startNew]) ∧
    o.ctls login.RunId = some newCtl ∧
    (∀ r, r ≠ login.RunId → o.ctls r = ctls r) := by
  intro hne h
  unfold RegisterControl at h
  split at h
  · simp at h
  · split at h
    · simp at h
    · split at h
      · simp at h
      · cases h
        refine ⟨fun hsome => ?_, fun hnone => ?_, ?_, fun r hr => ?_⟩
        · simp [ControlManager.Add, hne, hsome]
        · simp [ControlManager.Add, hne, hnone]
        · simp [ControlManager.Add, hne]
        · simp [ControlManager.Add, hne, if_neg hr]

/-- A control map with a session already registered under run id r1. -/
def c1Ctls : CtlMap := fun r => if r = "r1" then some 1 else none

/-- A re-login for run id r1 passing the version and key checks. -/
def c1Login : LoginMsg :=
  { Version := "0.1", User := "u", PrivilegeKey := wAuthKey "tok" 5, Timestamp := 5,
    RunId := "r1" }

/-- The event trace of the concrete re-login registration. -/
def c1Events : List CtlEvent :=
  match RegisterControl wCompat wAuthKey {} "rid" 2 100 { Token := "tok" } c1Ctls c1Login with
  | .ok o => o.events
  | .error _ => []

/-- C1 counterexample: on a re-login that evicts a prior session, the new
session is installed in the control manager strictly before the wait for the
prior session's shutdown completes — not after it, as the claim states. -/
theorem C1_relogin_eviction_counterexample :
    c1Events = [CtlEvent.startOldShutdown, CtlEvent.installNew,
      CtlEvent.waitOldDone, CtlEvent.startNew] ∧
    c1Events.indexOf CtlEvent.installNew < c1Events.indexOf CtlEvent.waitOldDone ∧
    ¬ c1Events.indexOf CtlEvent.waitOldDone < c1Events.indexOf CtlEvent.installNew := by
  refine ⟨by rfl, by decide, by decide⟩

/-- C1 witness: the amended theorem applied to the concrete re-login. -/
theorem C1_relogin_eviction_witness :
    c1Events = [CtlEvent.startOldShutdown, CtlEvent.installNew,
      CtlEvent.waitOldDone, CtlEvent.startNew] := by
  have h := C1_relogin_eviction wCompat wAuthKey {} "rid" 2 100 { Token := "tok" }
    c1Ctls c1Login
    ⟨fun r => if r = "r1" then some 2 else c1Ctls r, "r1",
      [.startOldShutdown, .installNew, .waitOldDone, .startNew]⟩
    (by decide) rfl
  exact (h.1 (by rfl)).symm ▸ rfl

/-- C2 (amended): with the external API disabled, registration fails exactly
when the client version is incompatible or the supplied key differs from
HMAC(token, timestamp); on such a failure HandleListener sends a LoginResp
carrying the error text and closes the connection, leaving the control
manager untouched. The code performs no timestamp-staleness check. -/
theorem C2_login_failure (compat : String → Bool) (getAuthKey : String → Int → String)
    (api : ApiModel) (randId : String) (newCtl : Nat) (now : Int)
    (serverVersion : String) (cfg : ServerCfg) (ctls : CtlMap) (login : LoginMsg)
    (hapi : cfg.EnableApi = false) :
    ((compat login.Version = false ∨
        getAuthKey cfg.Token login.Timestamp ≠ login.PrivilegeKey) →
      ∃ e, RegisterControl compat getAuthKey api randId newCtl now cfg ctls login =
          .error e ∧
        HandleListenerLogin compat getAuthKey api randId newCtl now serverVersion
          cfg ctls login = (ctls, [.writeLoginResp serverVersion e, .closeConn])) ∧
    (compat login.Version = true →
      getAuthKey cfg.Token login.Timestamp = login.PrivilegeKey →
      ∃ o, RegisterControl compat getAuthKey api randId newCtl now cfg ctls login = .ok o ∧
        HandleListenerLogin compat getAuthKey api randId newCtl now serverVersion
          cfg ctls login = (o.ctls, [])) := by
  constructor
  · intro hfail
    by_cases hv : compat login.Version = true
    · have hk : getAuthKey cfg.Token login.Timestamp ≠ login.PrivilegeKey := by
        rcases hfail with hf | hf
        · rw [hv] at hf; cases hf
        · exact hf
      refine ⟨"authorization failed", ?_, ?_⟩
      · unfold RegisterControl
        rw [if_neg (by simp [hv]), if_pos hk]
      · unfold HandleListenerLogin RegisterControl
        rw [if_neg (by simp [hv]), if_pos hk]
    · refine ⟨"incompatible version", ?_, ?_⟩
      · unfold RegisterControl
        rw [if_pos hv]
      · unfold HandleListenerLogin RegisterControl
        rw [if_pos hv]
  · intro hv hk
    unfold HandleListenerLogin RegisterControl
    rw [if_neg (by simp [hv]), if_neg (by simp [hk]),
      registerApiGate_disabled api now cfg login hapi]
    exact ⟨_, rfl, rfl⟩

/-- A login whose timestamp is far in the past but whose key matches. -/
def c2Login : LoginMsg :=
  { Version := "0.1", User := "u", PrivilegeKey := wAuthKey "tok" 0, Timestamp := 0,
    RunId := "r" }

/-- C2 counterexample: at server time 1000000 the login timestamp 0 is stale
by far more than fifteen minutes, yet registration succeeds — the code never
compares the timestamp against the clock. -/
theorem C2_login_failure_counterexample :
    (1000000 : Int) - c2Login.Timestamp > 15 * 60 ∧
    registrationOk (RegisterControl wCompat wAuthKey {} "rid" 1 1000000
      { Token := "tok" } (fun _ => none) c2Login) = true := by
  exact ⟨by decide, rfl⟩

/-- A login whose key does not match the token. -/
def wLoginBad : LoginMsg :=
  { Version := "0.1", User := "u", PrivilegeKey := "bad", Timestamp := 7, RunId := "" }

/-- C2 witness: a bad key is rejected with a LoginResp-then-close on the
transport, a good key produces no error action (both at concrete logins). -/
theorem C2_login_failure_witness :
    (HandleListenerLogin wCompat wAuthKey {} "rid" 1 7 "srv" { Token := "tok" }
      (fun _ => none) wLoginBad).2 =
      [.writeLoginResp "srv" "authorization failed", .closeConn] ∧
    (HandleListenerLogin wCompat wAuthKey {} "rid" 1 7 "srv" { Token := "tok" }
      (fun _ => none) wLoginFresh).2 = [] := by
  constructor
  · obtain ⟨e, he, hh⟩ := (C2_login_failure wCompat wAuthKey {} "rid" 1 7 "srv"
      { Token := "tok" } (fun _ => none) wLoginBad rfl).1 (Or.inr (by decide))
    have hee : Except.error (α := RegisterOutcome) e = .error "authorization failed" :=
      he.symm.trans rfl
    cases hee
    exact congrArg Prod.snd hh
  · obtain ⟨o, _, hh⟩ := (C2_login_failure wCompat wAuthKey {} "rid" 1 7 "srv"
      { Token := "tok" } (fun _ => none) wLoginFresh rfl).2 rfl (by decide)
    exact congrArg Prod.snd hh

/-- C3 (amended): with proxy_protocol_version v1 or v2 and a known source
(nonempty address, nonzero port), HandleTcpWorkConnection writes a
PROXY-protocol header of the configured version to the local connection
before any user bytes are forwarded; the transport protocol is TCPv6 for
every source address net.ParseIP accepts — IPv4 included, because the code
tests To16() against nil, which only holds for unparseable addresses, where
it yields TCPv4. With an unknown source no header is written. -/
theorem C3_proxy_protocol_header (ppv : String) (m : StartWorkConnMsg) :
    (ppv = "v1" ∨ ppv = "v2") →
    (m.SrcAddr ≠ "" ∧ m.SrcPort ≠ 0 →
      ∃ h, proxyProtocolHeader ppv m = some h ∧
        HandleTcpWorkConnectionLocalWrites ppv m =
          [.headerBytes h, .forwardedUserBytes] ∧
        h.Version = (if ppv = "v1" then 1 else 2) ∧
        h.SourceAddress = parseIP m.SrcAddr ∧
        h.SourcePort = m.SrcPort ∧
        (parseIP m.SrcAddr ≠ .invalid → h.TransportProtocol = .TCPv6) ∧
        (parseIP m.SrcAddr = .invalid → h.TransportProtocol = .TCPv4)) ∧
    (m.SrcAddr = "" ∨ m.SrcPort = 0 →
      proxyProtocolHeader ppv m = none ∧
      HandleTcpWorkConnectionLocalWrites ppv m = [.forwardedUserBytes]) := by
  intro hv
  have hppv : ppv ≠ "" := by rcases hv with h | h <;> simp [h]
  constructor
  · rintro ⟨hsrc, hport⟩
    have hhdr : proxyProtocolHeader ppv m = some
        { Version := if ppv = "v1" then 1 else if ppv = "v2" then 2 else 0
          TransportProtocol :=
            if (parseIP m.SrcAddr).To16 = none then .TCPv4 else .TCPv6
          SourceAddress := parseIP m.SrcAddr
          SourcePort := m.SrcPort
          DestinationAddress :=
            parseIP (if m.DstAddr = "" then "127.0.0.1" else m.DstAddr)
          DestinationPort := m.DstPort } := by
      unfold proxyProtocolHeader
      rw [if_pos hppv, if_pos ⟨hsrc, hport⟩]
    refine ⟨_, hhdr, ?_, ?_, rfl, rfl, ?_, ?_⟩
    · unfold HandleTcpWorkConnectionLocalWrites
      rw [hhdr]
    · rcases hv with h | h <;> simp [h]
    · intro hval
      have : (parseIP m.SrcAddr).To16 ≠ none := by
        cases hip : parseIP m.SrcAddr with
        | invalid => exact absurd hip hval
        | v4 a b c d => simp [GoIP.To16]
        | v6 gs => simp [GoIP.To16]
      simp [this]
    · intro hinv
      simp [hinv, GoIP.To16]
  · intro hunknown
    have hcond : ¬ (m.SrcAddr ≠ "" ∧ m.SrcPort ≠ 0) := by
      rcases hunknown with h | h <;> simp [h]
    have hnone : proxyProtocolHeader ppv m = none := by
      unfold proxyProtocolHeader
      rw [if_pos hppv, if_neg hcond]
    refine ⟨hnone, ?_⟩
    unfold HandleTcpWorkConnectionLocalWrites
    rw [hnone]

/-- A work-connection start message with an IPv4 source. -/
def c3Msg : StartWorkConnMsg :=
  { ProxyName := "p", SrcAddr := "1.2.3.4", DstAddr := "10.0.0.1",
    SrcPort := 1000, DstPort := 80 }

/-- C3 counterexample: for the IPv4 source 1.2.3.4 the written header carries
transport protocol TCPv6, not TCPv4 as the claim states — To16 of a valid
IPv4 address is not nil. -/
theorem C3_proxy_protocol_header_counterexample :
    parseIP c3Msg.SrcAddr = GoIP.v4 1 2 3 4 ∧
    (proxyProtocolHeader "v1" c3Msg).map PPHeader.TransportProtocol =
      some TransportProtocol.TCPv6 ∧
    some TransportProtocol.TCPv6 ≠ some TransportProtocol.TCPv4 := by
  refine ⟨by decide, by decide, by decide⟩

/-- The header built for the concrete IPv4 source. -/
def c3Hdr : PPHeader :=
  match proxyProtocolHeader "v1" c3Msg with
  | some h => h
  | none => {}

/-- C3 witness: the amended theorem applied to a concrete known IPv4 source
and to a concrete unknown source. -/
theorem C3_proxy_protocol_header_witness :
    HandleTcpWorkConnectionLocalWrites "v1" c3Msg =
      [.headerBytes c3Hdr, .forwardedUserBytes] ∧
    c3Hdr.Version = 1 ∧ c3Hdr.TransportProtocol = .TCPv6 ∧
    HandleTcpWorkConnectionLocalWrites "v2" { StartWorkConnMsg.mk "p" "" "" 0 0 with } =
      [.forwardedUserBytes] := by
  obtain ⟨h, h1, h2, h3, _, _, h6, _⟩ :=
    (C3_proxy_protocol_header "v1" c3Msg (Or.inl rfl)).1 ⟨by decide, by decide⟩
  have hc : some h = some c3Hdr := h1.symm.trans rfl
  cases hc
  exact ⟨h2, by simpa using h3, h6 (by decide),
    ((C3_proxy_protocol_header "v2" { StartWorkConnMsg.mk "p" "" "" 0 0 with }
      (Or.inr rfl)).2 (Or.inl rfl)).2⟩

/-- C8: a range section whose port lists parse to the same nonzero length
expands to exactly one sub-section per index, named name_i, carrying the
i-th local and remote ports and otherwise identical to the section; a length
mismatch, empty lists, or a parse failure of either list is an error. -/
theorem C8_parse_range_section (name : String) (sec : Section) :
    (∀ l r, ParseRangeNumbers (sec.get "local_port") = .ok l →
      ParseRangeNumbers (sec.get "remote_port") = .ok r →
      (l.length = r.length → l ≠ [] →
        ∃ out, ParseRangeSection name sec = .ok out ∧
          out.length = l.length ∧
          ∀ i (hi : i < out.length) (hl : i < l.length) (hr : i < r.length),
            (out.get ⟨i, hi⟩).1 = name ++ "_" ++ toString i ∧
            (out.get ⟨i, hi⟩).2.get "local_port" = toString (l.get ⟨i, hl⟩) ∧
            (out.get ⟨i, hi⟩).2.get "remote_port" = toString (r.get ⟨i, hr⟩) ∧
            (∀ k, k ≠ "local_port" → k ≠ "remote_port" →
              (out.get ⟨i, hi⟩).2.get? k = sec.get? k)) ∧
      (l.length ≠ r.length → ∃ e, ParseRangeSection name sec = .error e) ∧
      (l = [] → ∃ e, ParseRangeSection name sec = .error e)) ∧
    (∀ e, ParseRangeNumbers (sec.get "local_port") = .error e →
      ∃ e2, ParseRangeSection name sec = .error e2) ∧
    (∀ l e, ParseRangeNumbers (sec.get "local_port") = .ok l →
      ParseRangeNumbers (sec.get "remote_port") = .error e →
      ∃ e2, ParseRangeSection name sec = .error e2) := by
  refine ⟨?_, ?_, ?_⟩
  · intro l r hl hr
    have hred : ParseRangeSection name sec =
        (if l.length ≠ r.length then
          .error ("Parse conf error: range section [" ++ name ++
            "] local ports number should be same with remote ports number")
        else if l.length = 0 then
          .error ("Parse conf error: range section [" ++ name ++
            "] local_port and remote_port is necessary")
        else .ok ((l.zip r).enum.map (fun p =>
          (name ++ "_" ++ toString p.1,
            (sec.insert "local_port" (toString p.2.1)).insert
              "remote_port" (toString p.2.2))))) := by
      unfold ParseRangeSection
      rw [hl, hr]
    refine ⟨?_, ?_, ?_⟩
    · intro hlen hne
      refine ⟨(l.zip r).enum.map (fun p =>
          (name ++ "_" ++ toString p.1,
            (sec.insert "local_port" (toString p.2.1)).insert
              "remote_port" (toString p.2.2))), ?_, ?_, ?_⟩
      · rw [hred, if_neg (by simp [hlen]), if_neg (by simpa using hne)]
      · simp [List.enum_length, hlen]
      · intro i hi hil hir
        have hzl : (l.zip r).length = l.length := by
          simp [List.length_zip, hlen]
        have hget : ((l.zip r).enum.map (fun p =>
            (name ++ "_" ++ toString p.1,
              (sec.insert "local_port" (toString p.2.1)).insert
                "remote_port" (toString p.2.2)))).get ⟨i, hi⟩ =
            (name ++ "_" ++ toString i,
              (sec.insert "local_port" (toString (l.get ⟨i, hil⟩))).insert
                "remote_port" (toString (r.get ⟨i, hir⟩))) := by
          rw [List.get_eq_getElem, List.getElem_map, List.getElem_enum,
            List.getElem_zip]
          rfl
        refine ⟨?_, ?_, ?_, ?_⟩
        · rw [hget]
        · rw [hget]
          show Section.get _ _ = _
          unfold Section.get
          rw [lookupA_insert_ne _ _ _ _ (by decide), lookupA_insert]
          rfl
        · rw [hget]
          show Section.get _ _ = _
          unfold Section.get
          rw [lookupA_insert]
          rfl
        · intro k hk1 hk2
          rw [hget]
          show Section.get? _ _ = _
          unfold Section.get?
          rw [lookupA_insert_ne _ _ _ _ hk2, lookupA_insert_ne _ _ _ _ hk1]
    · intro hlen
      refine ⟨"Parse conf error: range section [" ++ name ++
        "] local ports number should be same with remote ports number", ?_⟩
      rw [hred, if_pos hlen]
    · intro hnil
      by_cases hlr : l.length = r.length
      · refine ⟨"Parse conf error: range section [" ++ name ++
          "] local_port and remote_port is necessary", ?_⟩
        rw [hred, if_neg (by simp [hlr]), if_pos (by simp [hnil])]
      · refine ⟨"Parse conf error: range section [" ++ name ++
          "] local ports number should be same with remote ports number", ?_⟩
        rw [hred, if_pos hlr]
  · intro e he
    refine ⟨"Parse conf error: range section [" ++ name ++ "] local_port invalid, " ++ e, ?_⟩
    unfold ParseRangeSection
    rw [he]
  · intro l e hl he
    refine ⟨"Parse conf error: range section [" ++ name ++ "] remote_port invalid, " ++ e, ?_⟩
    unfold ParseRangeSection
    rw [hl, he]

/-- A concrete range section: three local ports from a dash range plus one,
and four remote ports. -/
def c8Sec : Section :=
  [("type", "tcp"), ("local_ip", "127.0.0.1"),
   ("local_port", "7000-7002,8000"), ("remote_port", "6000-6003")]

/-- The number of sub-sections of a range expansion, none on error. -/
def rangeCount (r : Except String (List (String × Section))) : Option Nat :=
  match r with
  | .ok out => some out.length
  | .error _ => none

/-- C8 witness: the concrete range section expands into four sub-sections,
while mismatched or malformed port lists produce no expansion. -/
theorem C8_parse_range_section_witness :
    rangeCount (ParseRangeSection "rng" c8Sec) = some 4 ∧
    rangeCount (ParseRangeSection "rng"
      (Section.insert c8Sec "remote_port" "6000-6001")) = none ∧
    rangeCount (ParseRangeSection "rng"
      (Section.insert c8Sec "local_port" "x")) = none := by
  refine ⟨?_, ?_, ?_⟩
  · obtain ⟨out, ho, hlen, _⟩ := ((C8_parse_range_section "rng" c8Sec).1
      [7000, 7001, 7002, 8000] [6000, 6001, 6002, 6003] (by rfl) (by rfl)).1
      (by rfl) (by decide)
    rw [ho]
    simp [rangeCount, hlen]
  · obtain ⟨e, he⟩ := ((C8_parse_range_section "rng"
      (Section.insert c8Sec "remote_port" "6000-6001")).1
      [7000, 7001, 7002, 8000] [6000, 6001] (by rfl) (by rfl)).2.1 (by decide)
    rw [he]
    simp [rangeCount]
  · obtain ⟨e, he⟩ := (C8_parse_range_section "rng"
      (Section.insert c8Sec "local_port" "x")).2.1 "range number is invalid" (by rfl)
    rw [he]
    simp [rangeCount]

/-- C10: an empty proxy type is rewritten to tcp in both construction paths —
a NewProxy message builds the same config as the same message with type tcp
and always succeeds (the tcp server-side check accepts everything), an INI
section behaves as the same section with type tcp — while any type outside
the six known ones fails with an error in both paths. -/
theorem C10_empty_type_tcp (p : NewProxyMsg) (vhp vhsp : Int) (sdh : String)
    (pfx name : String) (sec : Section) (t : String) :
    (p.ProxyType = "" →
      NewProxyConfFromMsg p vhp vhsp sdh =
        NewProxyConfFromMsg { p with ProxyType := "tcp" } vhp vhsp sdh ∧
      ∃ c, NewProxyConfFromMsg p vhp vhsp sdh = .ok (ProxyConf.tcp c)) ∧
    (sec.get "type" = "" →
      NewProxyConfFromIni pfx name sec =
        NewProxyConfFromIni pfx name (sec.insert "type" "tcp")) ∧
    (t ≠ "" → t ≠ "tcp" → t ≠ "udp" → t ≠ "http" → t ≠ "https" → t ≠ "stcp" → t ≠ "xtcp" →
      (p.ProxyType = t → ∃ e, NewProxyConfFromMsg p vhp vhsp sdh = .error e) ∧
      (sec.get "type" = t → ∃ e, NewProxyConfFromIni pfx name sec = .error e)) := by
  refine ⟨?_, ?_, ?_⟩
  · intro hp
    constructor
    · unfold NewProxyConfFromMsg
      simp [hp]
    · unfold NewProxyConfFromMsg
      simp [hp, NewConfByType, ProxyConf.UnmarshalFromMsg, ProxyConf.CheckForSvr]
  · intro hsec
    unfold NewProxyConfFromIni
    rw [hsec, Section.get_insert]
    simp
  · intro h0 h1 h2 h3 h4 h5 h6
    have hconf : NewConfByType t = none := by
      unfold NewConfByType
      rw [if_neg h1, if_neg h2, if_neg h3, if_neg h4, if_neg h5, if_neg h6]
    constructor
    · intro hp
      refine ⟨"proxy [" ++ p.ProxyName ++ "] type [" ++ t ++ "] error", ?_⟩
      unfold NewProxyConfFromMsg
      rw [if_neg (by rw [hp]; exact h0)]
      simp only [hp, hconf]
    · intro hsec
      refine ⟨"proxy [" ++ name ++ "] type [" ++ t ++ "] error", ?_⟩
      unfold NewProxyConfFromIni
      simp only [hsec, if_neg h0, hconf]

/-- Classifies a construction result: tcp success, other success, or error. -/
def confShape (r : Except String ProxyConf) : String :=
  match r with
  | .ok (.tcp _) => "tcp"
  | .ok _ => "other"
  | .error _ => "error"

/-- A NewProxy message with an empty type field. -/
def c10MsgEmpty : NewProxyMsg := { ProxyName := "n" }

/-- The same message explicitly typed tcp. -/
def c10MsgTcp : NewProxyMsg := { ProxyName := "n", ProxyType := "tcp" }

/-- A NewProxy message with the unknown type ssh. -/
def c10MsgSsh : NewProxyMsg := { ProxyName := "n", ProxyType := "ssh" }

/-- An INI proxy section without a type key. -/
def c10Sec : Section := [("local_port", "22"), ("remote_port", "6000")]

/-- C10 witness: the empty-typed message builds the same tcp config as the
tcp-typed one and succeeds; the untyped INI section equals its tcp-typed
variant; the unknown type ssh fails. -/
theorem C10_empty_type_tcp_witness :
    NewProxyConfFromMsg c10MsgEmpty 80 443 "x.com" =
      NewProxyConfFromMsg c10MsgTcp 80 443 "x.com" ∧
    confShape (NewProxyConfFromMsg c10MsgEmpty 80 443 "x.com") = "tcp" ∧
    NewProxyConfFromIni "" "n" c10Sec =
      NewProxyConfFromIni "" "n" (Section.insert c10Sec "type" "tcp") ∧
    confShape (NewProxyConfFromMsg c10MsgSsh 80 443 "x.com") = "error" := by
  have h1 := (C10_empty_type_tcp c10MsgEmpty 80 443 "x.com" "" "n" c10Sec "ssh").1 rfl
  have h2 := (C10_empty_type_tcp c10MsgEmpty 80 443 "x.com" "" "n" c10Sec "ssh").2.1 rfl
  have h3 := ((C10_empty_type_tcp c10MsgSsh 80 443 "x.com" "" "n" c10Sec "ssh").2.2
    (by decide) (by decide) (by decide) (by decide) (by decide) (by decide)
    (by decide)).1 rfl
  obtain ⟨c, hc⟩ := h1.2
  obtain ⟨e, he⟩ := h3
  refine ⟨h1.1, by rw [hc]; rfl, h2, by rw [he]; rfl⟩

/-! ## Attribute-level equivalence of proxy configurations (spec side of C4) -/

/-- Equality of every LocalSvrConf attribute, the plugin parameters compared
as maps. -/
def LocalSvrEquiv (a b : LocalSvrConf) : Prop :=
  a.LocalIp = b.LocalIp ∧ a.LocalPort = b.LocalPort ∧ a.Plugin = b.Plugin ∧
    mapEqA a.PluginParams b.PluginParams

/-- Equality of the five user-set health-check attributes (the derived
HealthCheckAddr is not an attribute of its own). -/
def HealthEquiv (a b : HealthCheckConf) : Prop :=
  a.HealthCheckType = b.HealthCheckType ∧
  a.HealthCheckTimeoutS = b.HealthCheckTimeoutS ∧
  a.HealthCheckMaxFailed = b.HealthCheckMaxFailed ∧
  a.HealthCheckIntervalS = b.HealthCheckIntervalS ∧
  a.HealthCheckUrl = b.HealthCheckUrl

/-- Equality of every base attribute. -/
def BaseEquiv (a b : BaseProxyConf) : Prop :=
  a.ProxyName = b.ProxyName ∧ a.ProxyType = b.ProxyType ∧
  a.UseEncryption = b.UseEncryption ∧ a.UseCompression = b.UseCompression ∧
  a.Group = b.Group ∧ a.GroupKey = b.GroupKey ∧
  a.ProxyProtocolVersion = b.ProxyProtocolVersion ∧
  LocalSvrEquiv a.LocalSvrConf b.LocalSvrConf ∧
  HealthEquiv a.HealthCheckConf b.HealthCheckConf

/-- What Compare actually decides: same type and equal attributes, except
that the custom-domain and location lists are identified when their
space-joined renderings agree. -/
def ProxyConfEquiv : ProxyConf → ProxyConf → Prop
  | .tcp a, .tcp b =>
    BaseEquiv a.BaseProxyConf b.BaseProxyConf ∧
      a.BindInfoConf.RemotePort = b.BindInfoConf.RemotePort
  | .udp a, .udp b =>
    BaseEquiv a.BaseProxyConf b.BaseProxyConf ∧
      a.BindInfoConf.RemotePort = b.BindInfoConf.RemotePort
  | .http a, .http b =>
    BaseEquiv a.BaseProxyConf b.BaseProxyConf ∧
    joinSpace a.DomainConf.CustomDomains = joinSpace b.DomainConf.CustomDomains ∧
    a.DomainConf.SubDomain = b.DomainConf.SubDomain ∧
    joinSpace a.Locations = joinSpace b.Locations ∧
    a.HostHeaderRewrite = b.HostHeaderRewrite ∧
    a.HttpUser = b.HttpUser ∧ a.HttpPwd = b.HttpPwd ∧
    mapEqA a.Headers b.Headers
  | .https a, .https b =>
    BaseEquiv a.BaseProxyConf b.BaseProxyConf ∧
    joinSpace a.DomainConf.CustomDomains = joinSpace b.DomainConf.CustomDomains ∧
    a.DomainConf.SubDomain = b.DomainConf.SubDomain
  | .stcp a, .stcp b =>
    BaseEquiv a.BaseProxyConf b.BaseProxyConf ∧ a.Role = b.Role ∧ a.Sk = b.Sk
  | .xtcp a, .xtcp b =>
    BaseEquiv a.BaseProxyConf b.BaseProxyConf ∧ a.Role = b.Role ∧ a.Sk = b.Sk
  | _, _ => False

/-- Well-formedness of the embedded Go maps inside a config: no duplicate
keys. -/
def confWF : ProxyConf → Bool
  | .tcp c => decide (NodupKeys c.BaseProxyConf.LocalSvrConf.PluginParams)
  | .udp c => decide (NodupKeys c.BaseProxyConf.LocalSvrConf.PluginParams)
  | .http c => decide (NodupKeys c.BaseProxyConf.LocalSvrConf.PluginParams) &&
      decide (NodupKeys c.Headers)
  | .https c => decide (NodupKeys c.BaseProxyConf.LocalSvrConf.PluginParams)
  | .stcp c => decide (NodupKeys c.BaseProxyConf.LocalSvrConf.PluginParams)
  | .xtcp c => decide (NodupKeys c.BaseProxyConf.LocalSvrConf.PluginParams)

theorem healthCheckCompare_iff (a b : HealthCheckConf) :
    HealthCheckConf.compare a b = true ↔ HealthEquiv a b := by
  unfold HealthCheckConf.compare HealthEquiv
  split
  case isTrue h =>
    constructor
    · intro hf; cases hf
    · intro hc
      exfalso
      rcases h with h | h | h | h | h
      · exact h hc.1
      · exact h hc.2.1
      · exact h hc.2.2.1
      · exact h hc.2.2.2.1
      · exact h hc.2.2.2.2
  case isFalse h =>
    push_neg at h
    exact iff_of_true rfl ⟨h.1, h.2.1, h.2.2.1, h.2.2.2.1, h.2.2.2.2⟩

theorem localSvrCompare_iff (a b : LocalSvrConf)
    (ha : NodupKeys a.PluginParams) (hb : NodupKeys b.PluginParams) :
    LocalSvrConf.compare a b = true ↔ LocalSvrEquiv a b := by
  unfold LocalSvrConf.compare LocalSvrEquiv
  split
  case isTrue h =>
    constructor
    · intro hf; cases hf
    · intro hc
      exfalso
      rcases h with h | h
      · exact h hc.1
      · exact h hc.2.1
  case isFalse h =>
    split
    case isTrue h2 =>
      constructor
      · intro hf; cases hf
      · intro hc; exact (h2 hc.2.2.1).elim
    case isFalse h2 =>
      push_neg at h h2
      rw [mapCompareA_iff_mapEqA ha hb]
      constructor
      · intro hm; exact ⟨h.1, h.2, h2, hm⟩
      · intro hc; exact hc.2.2.2

theorem baseProxyCompare_iff (a b : BaseProxyConf)
    (ha : NodupKeys a.LocalSvrConf.PluginParams)
    (hb : NodupKeys b.LocalSvrConf.PluginParams) :
    BaseProxyConf.compare a b = true ↔ BaseEquiv a b := by
  unfold BaseProxyConf.compare BaseEquiv
  split
  case isTrue h =>
    constructor
    · intro hf; cases hf
    · intro hc
      exfalso
      rcases h with h | h | h | h | h | h | h
      · exact h hc.1
      · exact h hc.2.1
      · exact h hc.2.2.1
      · exact h hc.2.2.2.1
      · exact h hc.2.2.2.2.1
      · exact h hc.2.2.2.2.2.1
      · exact h hc.2.2.2.2.2.2.1
  case isFalse h =>
    split
    case isTrue h2 =>
      constructor
      · intro hf; cases hf
      · intro hc
        exfalso
        exact h2 ((localSvrCompare_iff _ _ ha hb).mpr hc.2.2.2.2.2.2.2.1)
    case isFalse h2 =>
      split
      case isTrue h3 =>
        constructor
        · intro hf; cases hf
        · intro hc
          exfalso
          exact h3 ((healthCheckCompare_iff _ _).mpr hc.2.2.2.2.2.2.2.2)
      case isFalse h3 =>
        push_neg at h
        rw [not_not] at h2 h3
        refine iff_of_true rfl
          ⟨h.1, h.2.1, h.2.2.1, h.2.2.2.1, h.2.2.2.2.1, h.2.2.2.2.2.1, h.2.2.2.2.2.2,
            (localSvrCompare_iff _ _ ha hb).mp h2,
            (healthCheckCompare_iff _ _).mp h3⟩

theorem bindInfoCompare_iff (a b : BindInfoConf) :
    BindInfoConf.compare a b = true ↔ a.RemotePort = b.RemotePort := by
  unfold BindInfoConf.compare
  split
  case isTrue h =>
    constructor
    · intro hf; cases hf
    · intro hc; exact (h hc).elim
  case isFalse h =>
    push_neg at h
    exact iff_of_true rfl h

theorem domainCompare_iff (a b : DomainConf) :
    DomainConf.compare a b = true ↔
      (joinSpace a.CustomDomains = joinSpace b.CustomDomains ∧
        a.SubDomain = b.SubDomain) := by
  unfold DomainConf.compare
  split
  case isTrue h =>
    constructor
    · intro hf; cases hf
    · intro hc
      exfalso
      rcases h with h | h
      · exact h hc.1
      · exact h hc.2
  case isFalse h =>
    push_neg at h
    exact iff_of_true rfl h

/-- C4 (amended): for two proxy configurations, Compare returns true iff
they have the same type and all their attributes are equal, except that the
custom_domains and locations lists are compared by their single-space-joined
strings — distinct lists whose joins coincide compare equal — and the
derived health-check address is not inspected. The maps (plugin parameters,
headers) are compared extensionally. -/
theorem C4_compare_iff (a b : ProxyConf) (ha : confWF a = true) (hb : confWF b = true) :
    ProxyConf.Compare a b = true ↔ ProxyConfEquiv a b := by
  cases a <;> cases b <;>
    simp only [ProxyConf.Compare, ProxyConfEquiv] <;>
    try exact iff_of_false (fun hf => by cases hf) id
  case tcp.tcp a b =>
    simp only [confWF, decide_eq_true_eq] at ha hb
    unfold TcpProxyConf.Compare
    split
    case isTrue h =>
      constructor
      · intro hf; cases hf
      · intro hc
        exfalso
        rcases h with h | h
        · exact h ((baseProxyCompare_iff _ _ ha hb).mpr hc.1)
        · exact h ((bindInfoCompare_iff _ _).mpr hc.2)
    case isFalse h =>
      push_neg at h
      exact iff_of_true rfl
        ⟨(baseProxyCompare_iff _ _ ha hb).mp h.1,
          (bindInfoCompare_iff _ _).mp h.2⟩
  case udp.udp a b =>
    simp only [confWF, decide_eq_true_eq] at ha hb
    unfold UdpProxyConf.Compare
    split
    case isTrue h =>
      constructor
      · intro hf; cases hf
      · intro hc
        exfalso
        rcases h with h | h
        · exact h ((baseProxyCompare_iff _ _ ha hb).mpr hc.1)
        · exact h ((bindInfoCompare_iff _ _).mpr hc.2)
    case isFalse h =>
      push_neg at h
      exact iff_of_true rfl
        ⟨(baseProxyCompare_iff _ _ ha hb).mp h.1,
          (bindInfoCompare_iff _ _).mp h.2⟩
  case http.http a b =>
    simp only [confWF, Bool.and_eq_true, decide_eq_true_eq] at ha hb
    unfold HttpProxyConf.Compare
    split
    case isTrue h =>
      constructor
      · intro hf; cases hf
      · intro hc
        exfalso
        rcases h with h | h | h | h | h | h
        · exact h ((baseProxyCompare_iff _ _ ha.1 hb.1).mpr hc.1)
        · exact h ((domainCompare_iff _ _).mpr ⟨hc.2.1, hc.2.2.1⟩)
        · exact h hc.2.2.2.1
        · exact h hc.2.2.2.2.1
        · exact h hc.2.2.2.2.2.1
        · exact h hc.2.2.2.2.2.2.1
    case isFalse h =>
      push_neg at h
      rw [mapCompareA_iff_mapEqA ha.2 hb.2]
      have hd := (domainCompare_iff _ _).mp h.2.1
      constructor
      · intro hm
        exact ⟨(baseProxyCompare_iff _ _ ha.1 hb.1).mp h.1, hd.1, hd.2,
          h.2.2.1, h.2.2.2.1, h.2.2.2.2.1, h.2.2.2.2.2, hm⟩
      · intro hc
        exact hc.2.2.2.2.2.2.2
  case https.https a b =>
    simp only [confWF, decide_eq_true_eq] at ha hb
    unfold HttpsProxyConf.Compare
    split
    case isTrue h =>
      constructor
      · intro hf; cases hf
      · intro hc
        exfalso
        rcases h with h | h
        · exact h ((baseProxyCompare_iff _ _ ha hb).mpr hc.1)
        · exact h ((domainCompare_iff _ _).mpr ⟨hc.2.1, hc.2.2⟩)
    case isFalse h =>
      push_neg at h
      have hd := (domainCompare_iff _ _).mp h.2
      exact iff_of_true rfl
        ⟨(baseProxyCompare_iff _ _ ha hb).mp h.1, hd.1, hd.2⟩
  case stcp.stcp a b =>
    simp only [confWF, decide_eq_true_eq] at ha hb
    unfold StcpProxyConf.Compare
    split
    case isTrue h =>
      constructor
      · intro hf; cases hf
      · intro hc
        exfalso
        rcases h with h | h | h
        · exact h ((baseProxyCompare_iff _ _ ha hb).mpr hc.1)
        · exact h hc.2.1
        · exact h hc.2.2
    case isFalse h =>
      push_neg at h
      exact iff_of_true rfl
        ⟨(baseProxyCompare_iff _ _ ha hb).mp h.1, h.2.1, h.2.2⟩
  case xtcp.xtcp a b =>
    simp only [confWF, decide_eq_true_eq] at ha hb
    unfold XtcpProxyConf.Compare
    split
    case isTrue h =>
      constructor
      · intro hf; cases hf
      · intro hc
        exfalso
        rcases h with h | h | h | h
        · exact h ((baseProxyCompare_iff _ _ ha hb).mpr hc.1)
        · exact h ((localSvrCompare_iff _ _ ha hb).mpr hc.1.2.2.2.2.2.2.2.1)
        · exact h hc.2.1
        · exact h hc.2.2
    case isFalse h =>
      push_neg at h
      exact iff_of_true rfl
        ⟨(baseProxyCompare_iff _ _ ha hb).mp h.1, h.2.2.1, h.2.2.2⟩

/-- An HTTP proxy config whose single location contains an inner space. -/
def c4a : HttpProxyConf :=
  { BaseProxyConf := { ProxyName := "web", ProxyType := "http" }
    DomainConf := { CustomDomains := ["ex.com"], SubDomain := "" }
    Locations := ["a b"] }

/-- The same config with the location list split in two. -/
def c4b : HttpProxyConf :=
  { BaseProxyConf := { ProxyName := "web", ProxyType := "http" }
    DomainConf := { CustomDomains := ["ex.com"], SubDomain := "" }
    Locations := ["a", "b"] }

/-- C4 counterexample: two HTTP proxy configs with distinct locations lists
compare equal, because the lists are compared by their space-joined strings
and both join to the three characters a-space-b. -/
theorem C4_compare_iff_counterexample :
    ProxyConf.Compare (.http c4a) (.http c4b) = true ∧
    c4a.Locations ≠ c4b.Locations := by
  exact ⟨by rfl, by decide⟩

/-- C4 witness: the amended characterization applied to the two concrete
configs of the counterexample. -/
theorem C4_compare_iff_witness : ProxyConfEquiv (.http c4a) (.http c4b) :=
  (C4_compare_iff (.http c4a) (.http c4b) (by rfl) (by rfl)).mp (by rfl)

end Frp
